import Mathlib

/-!
Verification model of the Iron Lady WATI analytics backend
(`backend/main.py`): the webhook event classifier, the ticket
lifecycle handler, the outbound messaging gateway and the counsellor
reply endpoint, shallowly embedded as pure Lean functions over an
explicit database state.  Timestamps are natural numbers (seconds),
database rows are list elements, and outbound provider calls are
recorded as effect values.
-/

namespace Wati

/-! ## Python string primitives -/

/-- Whitespace characters removed by Python `str.strip()`. -/
def pyIsSpace (c : Char) : Bool :=
  c == ' ' || c == '\t' || c == '\n' || c == '\x0d' || c == '\x0b' || c == '\x0c'

/-- Python `str.strip()`: drop leading and trailing whitespace. -/
def pyStrip (s : String) : String :=
  String.mk (((s.toList.dropWhile pyIsSpace).reverse.dropWhile pyIsSpace).reverse)

/-- Python `str.lower()` (ASCII case folding, which covers every phrase list
in the source). -/
def pyLower (s : String) : String :=
  String.mk (s.toList.map Char.toLower)

/-- `isPre n h` : `n` is a leading segment of `h`. -/
def isPre : List Char → List Char → Bool
  | [], _ => true
  | _ :: _, [] => false
  | a :: as, b :: bs => a == b && isPre as bs

/-- `hasSub n h` : `n` occurs contiguously somewhere in `h`. -/
def hasSub (needle : List Char) : List Char → Bool
  | [] => needle.isEmpty
  | c :: t => isPre needle (c :: t) || hasSub needle t

/-- Python `needle in hay` on strings. -/
def strContains (hay needle : String) : Bool :=
  hasSub needle.toList hay.toList

/-- Python truthiness of an optional string (`None` and `""` are falsy). -/
def optTruthy : Option String → Bool
  | none => false
  | some s => s != ""

/-- Python `x or y` on optional strings (`None`/`""` fall through). -/
def pyOrOpt (x y : Option String) : Option String :=
  if optTruthy x then x else y

/-- `phone.replace("+", "").replace(" ", "").strip()` as used throughout
the source to normalize phone numbers. -/
def normalizePhone (p : String) : String :=
  pyStrip (String.mk (p.toList.filter (fun c => !(c == '+') && !(c == ' '))))

/-! ## Phrase lists (verbatim from `backend/main.py`) -/

def QUERY_BUTTONS : List String :=
  ["i have a query", "have a query", "query", "have query"]

def CONCERN_BUTTONS : List String :=
  ["raise a concern", "have a concern", "concern", "raise concern"]

def SATISFACTION_YES_RESPONSES : List String :=
  ["yes, resolved", "yes,resolved", "yes resolved", "resolved", "yes"]

def SATISFACTION_NO_RESPONSES : List String :=
  ["need more help", "needmorehelp", "need help", "more help", "no"]

def CHATBOT_BUTTONS : List String :=
  ["new to platform", "enrolled participant", "more options",
   "lep", "100bm", "mbw", "masterclass", "leadership essentials",
   "100 board members", "master of business warfare", "know more",
   "ask a question", "feedback"]

def IGNORE_MESSAGES : List String :=
  ["hi", "hello", "hey", "hii", "hiii", "helloo", "hellooo",
   "good morning", "good night", "good evening", "gm", "gn",
   "morning", "night", "evening", "bye", "byee", "goodbye",
   "thanks", "thank you", "thankyou", "thnx", "thx", "ty",
   "ok", "okay", "k", "oky", "yes", "no", "ya", "yep", "nope", "yup",
   "hmm", "hm", "mm", "cool", "nice", "great", "awesome", "sure",
   "alright", "fine", "good", "bad", "np"]

/-! ## Classifier helpers -/

/-- `should_ignore_message` from the source: casual message or shorter
than three characters. -/
def should_ignore_message (message : String) : Bool :=
  let messageLower := pyStrip (pyLower message)
  IGNORE_MESSAGES.contains messageLower || (pyStrip message).length < 3

/-- Character class of the local part of the email pattern
`[a-zA-Z0-9._%+-]`. -/
def emailLocalChar (c : Char) : Bool :=
  c.isAlphanum || c == '.' || c == '_' || c == '%' || c == '+' || c == '-'

/-- Character class of the domain part `[a-zA-Z0-9.-]`. -/
def emailDomainChar (c : Char) : Bool :=
  c.isAlphanum || c == '.' || c == '-'

/-- Try to match `[a-zA-Z0-9.-]{k} \. [a-zA-Z]{2,}` at the head of `cs`,
with the first piece exactly `k` characters long and the alphabetic tail
taken greedily. -/
def emailDomainAt (cs : List Char) (k : Nat) : Option (List Char) :=
  let b := cs.take k
  if b.length == k && b.all emailDomainChar && k != 0 then
    match cs.drop k with
    | '.' :: rest =>
      let t := rest.takeWhile Char.isAlpha
      if 2 ≤ t.length then some (b ++ '.' :: t) else none
    | _ => none
  else none

/-- Backtracking search for the domain part, longest first, mirroring the
greedy `[a-zA-Z0-9.-]+\.[a-zA-Z]{2,}` of the regex. -/
def emailDomainSearch (cs : List Char) : Nat → Option (List Char)
  | 0 => none
  | k + 1 =>
    match emailDomainAt cs (k + 1) with
    | some m => some m
    | none => emailDomainSearch cs k

/-- Try to match the full email pattern at the head of `cs`. -/
def emailMatchAt (cs : List Char) : Option (List Char) :=
  let loc := cs.takeWhile emailLocalChar
  if loc.isEmpty then none
  else
    match cs.drop loc.length with
    | '@' :: rest =>
      match emailDomainSearch rest (rest.takeWhile emailDomainChar).length with
      | some dom => some (loc ++ '@' :: dom)
      | none => none
    | _ => none

/-- Leftmost-match scan, mirroring `re.search`. -/
def emailScan : List Char → Option (List Char)
  | [] => none
  | c :: rest =>
    match emailMatchAt (c :: rest) with
    | some m => some m
    | none => emailScan rest

/-- `extract_email` from the source: leftmost match of
`[a-zA-Z0-9._%+-]+@[a-zA-Z0-9.-]+\.[a-zA-Z]{2,}`. -/
def extract_email (text : String) : Option String :=
  (emailScan text.toList).map String.mk

/-- `is_satisfaction_response` from the source: exact-set membership first
(yes before no), then bidirectional substring matching (yes loop before
no loop).  The source's `message_lower` local is written out as
`pyStrip (pyLower message)` at each use. -/
def is_satisfaction_response (message : String) : Option Bool :=
  if SATISFACTION_YES_RESPONSES.contains (pyStrip (pyLower message)) then some true
  else if SATISFACTION_NO_RESPONSES.contains (pyStrip (pyLower message)) then some false
  else if SATISFACTION_YES_RESPONSES.any (fun y =>
      strContains (pyStrip (pyLower message)) y ||
        strContains y (pyStrip (pyLower message))) then
    some true
  else if SATISFACTION_NO_RESPONSES.any (fun n =>
      strContains (pyStrip (pyLower message)) n ||
        strContains n (pyStrip (pyLower message))) then
    some false
  else none

example : is_satisfaction_response "yes I still need help" = some true := by decide
example : is_satisfaction_response "Not resolved" = some true := by decide
example : is_satisfaction_response "know more" = some false := by decide
example : is_satisfaction_response "something else entirely" = none := by decide
example : extract_email "write to a.b@mail.co.in now" = some "a.b@mail.co.in" := by decide
example : extract_email "no address here" = none := by decide
example : should_ignore_message " Ok " = true := by decide
example : should_ignore_message "my invoice is wrong" = false := by decide

/-! ## Data model (one structure per SQLAlchemy model used by the core) -/

/-- Row of `users`. -/
structure User where
  id : Nat
  phone : String
  name : Option String
  email : Option String
  participationLevel : String
  enrolledProgram : Option String
  firstSeen : Nat
  lastInteraction : Nat
  hasActiveTicket : Bool
  awaitingTicketType : Option String
  deriving Repr, DecidableEq

/-- Row of `tickets`. -/
structure Ticket where
  id : Nat
  ticketNumber : String
  userId : Nat
  category : String
  initialMessage : String
  status : String
  createdAt : Nat
  resolvedAt : Option Nat
  lastUserMessageAt : Option Nat
  lastCounsellorReplyAt : Option Nat
  deriving Repr, DecidableEq

/-- Row of `ticket_messages`. -/
structure TicketMessage where
  ticketId : Nat
  direction : String
  messageType : String
  messageText : String
  watiMessageId : Option String
  deliveryStatus : String
  sentBy : Option String
  deliveredAt : Option Nat
  readAt : Option Nat
  deriving Repr, DecidableEq

/-- Row of `broadcast_messages` (only the fields the webhook touches). -/
structure Broadcast where
  watiMessageId : Option String
  status : String
  failureReason : Option String
  deliveredAt : Option Nat
  readAt : Option Nat
  failedAt : Option Nat
  deriving Repr, DecidableEq

/-- Row of `course_interests`. -/
structure CourseInterest where
  userId : Nat
  courseName : String
  clickCount : Nat
  lastClicked : Nat
  deriving Repr, DecidableEq

/-- Row of `webhook_logs` (the raw JSON dump column is omitted;
it is a diagnostic copy of the payload, never read back). -/
structure WebhookLog where
  eventType : String
  phoneNumber : String
  isOutgoing : Bool
  processed : Bool
  actionTaken : Option String
  deriving Repr, DecidableEq

/-- The whole conversation store.  `counters` holds the
`ticket_counter` rows as `(year, last_number)` pairs. -/
structure DB where
  users : List User
  tickets : List Ticket
  ticketMessages : List TicketMessage
  counters : List (Nat × Nat)
  courseInterests : List CourseInterest
  broadcasts : List Broadcast
  logs : List WebhookLog
  deriving Repr, DecidableEq

def DB.empty : DB :=
  { users := [], tickets := [], ticketMessages := [], counters := [],
    courseInterests := [], broadcasts := [], logs := [] }

/-- Outbound calls made against the WATI HTTP API, recorded as values. -/
inductive Effect
  | sendText (phone message : String)
  | sendButtons (phone body : String) (buttons : List String)
  | sendMedia (phone url caption : String)
  | assignOperator (phone operatorEmail : String)
  | unassignOperator (phone : String)
  deriving Repr, DecidableEq

/-! ## Outbound messaging gateway -/

/-- Abstract provider HTTP response, collapsing the alternate JSON field
spellings (`messageId` / `id` collapse to `messageId`). -/
structure WatiHttpResponse where
  statusCode : Nat
  resultFlag : Bool
  statusString : Option String
  messageId : Option String
  whatsappMessageId : Option String
  message : Option String
  deriving Repr, DecidableEq

/-- Uniform result of an outbound gateway call. -/
structure SendResult where
  success : Bool
  messageId : Option String
  error : Option String
  deriving Repr, DecidableEq

/-- `send_wati_message`: one HTTP transmission per call whenever a token
is configured (the effect list records the transmissions); no
fingerprint cache or recency check appears anywhere in the source. -/
def send_wati_message (token : String) (resp : WatiHttpResponse)
    (phoneNumber message : String) : SendResult × List Effect :=
  if token == "" then
    ({ success := false, messageId := none,
       error := some "WATI API token not configured" }, [])
  else
    let phone := normalizePhone phoneNumber
    if resp.statusCode == 200 && resp.resultFlag then
      ({ success := true, messageId := resp.messageId, error := none },
       [Effect.sendText phone message])
    else
      ({ success := false, messageId := none,
         error := some ((pyOrOpt resp.message (some "Unknown error")).getD "") },
       [Effect.sendText phone message])

/-- `send_wati_interactive_buttons`: success is any of the alternate
indicators; one transmission per call when a token is configured. -/
def send_wati_interactive_buttons (token : String) (resp : WatiHttpResponse)
    (phoneNumber bodyText : String) (buttons : List String) : SendResult × List Effect :=
  if token == "" then
    ({ success := false, messageId := none,
       error := some "WATI API token not configured" }, [])
  else
    let phone := normalizePhone phoneNumber
    let isSuccess := resp.statusCode == 200 &&
      (resp.resultFlag || resp.statusString == some "SENT" || resp.whatsappMessageId.isSome)
    if isSuccess then
      ({ success := true, messageId := pyOrOpt resp.messageId resp.whatsappMessageId,
         error := none }, [Effect.sendButtons phone bodyText buttons])
    else
      ({ success := false, messageId := none,
         error := some ((pyOrOpt resp.message (some "Unknown error")).getD "") },
       [Effect.sendButtons phone bodyText buttons])

/-- One queued text-send request: issue time, destination, content and the
provider response it would receive.  The issue time is recorded so that
claims about send spacing can be stated against it. -/
structure SendReq where
  atTime : Nat
  phone : String
  message : String
  resp : WatiHttpResponse
  deriving Repr, DecidableEq

/-- Run a sequence of `send_wati_message` calls, accumulating results and
provider transmissions. -/
def runTextSends (token : String) : List SendReq → List SendResult × List Effect
  | [] => ([], [])
  | r :: rs =>
    ((send_wati_message token r.resp r.phone r.message).fst :: (runTextSends token rs).fst,
     (send_wati_message token r.resp r.phone r.message).snd ++ (runTextSends token rs).snd)

/-! ## Ticket helper functions -/

/-- Python `"%04d" % n`: zero-pad to at least four digits. -/
def pad4 (n : Nat) : String :=
  let s := toString n
  String.mk (List.replicate (4 - s.length) '0') ++ s

def mkTicketNumber (year n : Nat) : String :=
  "TKT-" ++ toString year ++ "-" ++ pad4 n

/-- `generate_ticket_number`: bump (or create) the per-year counter row
and format the number. -/
def generate_ticket_number (counters : List (Nat × Nat)) (year : Nat) :
    String × List (Nat × Nat) :=
  match counters.find? (fun c => c.fst == year) with
  | some c =>
    (mkTicketNumber year (c.snd + 1),
     counters.map (fun d => if d.fst == year then (d.fst, c.snd + 1) else d))
  | none => (mkTicketNumber year 1, counters ++ [(year, 1)])

/-- Update the user row with the given id in place. -/
def updUser (users : List User) (uid : Nat) (f : User → User) : List User :=
  users.map (fun u => if u.id == uid then f u else u)

/-- The field updates `get_or_create_user` applies to an existing row:
bump `last_interaction`; fill `name`/`email` only when the stored value
is falsy and the argument truthy. -/
def gocuUpdate (now : Nat) (name email : Option String) (u : User) : User :=
  { u with
    lastInteraction := now,
    name := if optTruthy name && !optTruthy u.name then name else u.name,
    email := if optTruthy email && !optTruthy u.email then email else u.email }

/-- `get_or_create_user`. New rows get `id = users.length`, modelling the
autoincrement primary key (rows are never deleted). -/
def get_or_create_user (now : Nat) (db : DB) (phoneNumber : String)
    (name email : Option String) : DB × User :=
  let phone := normalizePhone phoneNumber
  match db.users.find? (fun u => u.phone == phone) with
  | some u =>
    ({ db with users := updUser db.users u.id (gocuUpdate now name email) },
     gocuUpdate now name email u)
  | none =>
    let nu : User :=
      { id := db.users.length, phone := phone, name := name, email := email,
        participationLevel := "Unknown", enrolledProgram := none,
        firstSeen := now, lastInteraction := now,
        hasActiveTicket := false, awaitingTicketType := none }
    ({ db with users := db.users ++ [nu] }, nu)

def activeStatuses : List String := ["pending", "in_progress", "awaiting"]

/-- `order_by(created_at.desc()).first()` over a filtered list: the row
with the greatest creation time. -/
def pickLatest : List Ticket → Option Ticket
  | [] => none
  | t :: ts =>
    match pickLatest ts with
    | none => some t
    | some u => if t.createdAt > u.createdAt then some t else some u

/-- `get_active_ticket_for_user`: most recent ticket of the user whose
status is `pending`, `in_progress` or `awaiting`. -/
def get_active_ticket_for_user (db : DB) (phoneNumber : String) : Option Ticket :=
  let phone := normalizePhone phoneNumber
  match db.users.find? (fun u => u.phone == phone) with
  | none => none
  | some user =>
    pickLatest (db.tickets.filter
      (fun t => t.userId == user.id && activeStatuses.contains t.status))

/-- `update_course_interest`. -/
def update_course_interest (now : Nat) (db : DB) (userId : Nat)
    (courseName : String) : DB :=
  if db.courseInterests.any (fun ci => ci.userId == userId && ci.courseName == courseName) then
    { db with courseInterests := (db.courseInterests.map
        (fun ci => if ci.userId == userId && ci.courseName == courseName then
          { ci with clickCount := ci.clickCount + 1, lastClicked := now } else ci)) }
  else
    { db with courseInterests := (db.courseInterests ++
        [{ userId := userId, courseName := courseName, clickCount := 1, lastClicked := now }]) }

/-- `add_enrolled_program`: append-only comma-joined set,
guarded by substring membership. -/
def add_enrolled_program (program : String) (u : User) : User :=
  if !optTruthy u.enrolledProgram then { u with enrolledProgram := some program }
  else if strContains (u.enrolledProgram.getD "") program then u
  else { u with enrolledProgram := some (u.enrolledProgram.getD "" ++ "," ++ program) }

/-! ## Counsellor reply endpoint -/

/-- Outcome of `POST /api/tickets/id/reply`: an `HTTPException` with its
status code, or a success body. -/
inductive ReplyOutcome
  | httpError (statusCode : Nat) (detail : String)
  | ok (messageId : Option String)
  deriving Repr, DecidableEq

/-- The text appended to every counsellor reply by the endpoint. -/
def satisfactionFooter : String :=
  "\n\n───────────────────\nAre you satisfied with this response?"

/-- `send_ticket_reply` (`POST /api/tickets/id/reply`): reject on a
resolved ticket or an expired 24-hour window; otherwise transmit and, on
success, record the outbound transcript row, move the ticket to
`in_progress` and stamp the counsellor-reply time. -/
def send_ticket_reply (now : Nat) (token : String) (resp : WatiHttpResponse)
    (db : DB) (ticketId : Nat) (message counsellorName : String) :
    ReplyOutcome × DB × List Effect :=
  match db.tickets.find? (fun t => t.id == ticketId) with
  | none => (.httpError 404 "Ticket not found", db, [])
  | some ticket =>
    if ticket.status == "resolved" then
      (.httpError 400 "Cannot reply to resolved ticket", db, [])
    else
      let lastMsgTime := ticket.lastUserMessageAt.getD ticket.createdAt
      if 24 * 3600 < now - lastMsgTime then
        (.httpError 400 "24-hour window has expired. Cannot send session message.", db, [])
      else
        let phone := ((db.users.find? (fun u => u.id == ticket.userId)).map User.phone).getD ""
        let result := (send_wati_interactive_buttons token resp phone
          (message ++ satisfactionFooter) ["Yes, Resolved", "Need More Help"]).fst
        if result.success then
          let tm : TicketMessage :=
            { ticketId := ticket.id, direction := "outgoing", messageType := "text",
              messageText := message, watiMessageId := result.messageId,
              deliveryStatus := "sent", sentBy := some counsellorName,
              deliveredAt := none, readAt := none }
          (.ok result.messageId,
           { db with
             ticketMessages := db.ticketMessages ++ [tm],
             tickets := db.tickets.map (fun t =>
               if t.id == ticket.id then
                 { t with status := "in_progress", lastCounsellorReplyAt := some now }
               else t) },
           (send_wati_interactive_buttons token resp phone
             (message ++ satisfactionFooter) ["Yes, Resolved", "Need More Help"]).snd)
        else
          (.httpError 500 ("Failed to send message: " ++ (result.error.getD "")), db,
           (send_wati_interactive_buttons token resp phone
             (message ++ satisfactionFooter) ["Yes, Resolved", "Need More Help"]).snd)

/-! ## Webhook ingress -/

/-- Normalized inbound webhook payload.  The alternate field spellings of
the raw JSON are collapsed ahead of the handler exactly as the source's
extraction prologue does: `waId`/`waNumber` into `waId`,
`id`/`messageId` into `messageId`, the four button/list-reply shapes
into `buttonText` (empty when absent), and the
`owner`/`isFromMe`/`fromMe` indicators into `ownerFlag`. -/
structure Payload where
  waId : String
  senderName : String
  eventType : String
  text : String
  buttonText : String
  messageId : Option String
  ownerFlag : Bool
  failedDetail : Option String
  errorMessage : Option String
  deriving Repr, DecidableEq

/-- `senderName.replace("~", "").strip() or None`. -/
def senderNameOf (p : Payload) : Option String :=
  let s := pyStrip (String.mk (p.senderName.toList.filter (fun c => !(c == '~'))))
  if s == "" then none else some s

def statusEventTypes : List String :=
  ["templateMessageFailed", "sentMessageDELIVERED", "sentMessageREAD",
   "sent", "delivered", "read", "failed"]

def outgoingEventTypes : List String :=
  ["sessionMessageSent", "session_message_sent", "message_sent"]

/-- The `is_outgoing` disjunction. -/
def isOutgoingOf (p : Payload) : Bool :=
  p.ownerFlag || outgoingEventTypes.contains p.eventType

/-- Button text, when present, replaces the message text. -/
def messageTextOf (p : Payload) : String :=
  if p.buttonText != "" then p.buttonText else p.text

/-- The lowered, stripped message text the classifier checks run on. -/
def messageLowerOf (p : Payload) : String :=
  pyStrip (pyLower (messageTextOf p))

/-- `wa_number.replace("+", "").replace(" ", "")` applied to the payload's
phone field. -/
def waNumberOf (p : Payload) : String :=
  String.mk (p.waId.toList.filter (fun c => !(c == '+') && !(c == ' ')))

/-- The JSON body returned to the provider (present keys only). -/
structure WebhookResult where
  status : String
  action : Option String
  reason : Option String
  ticketNumber : Option String
  category : Option String
  email : Option String
  errMessage : Option String
  deriving Repr, DecidableEq

/-- Result carrying only a status tag. -/
def mkRes (status : String) : WebhookResult :=
  { status := status, action := none, reason := none, ticketNumber := none,
    category := none, email := none, errMessage := none }

/-- Result carrying a status tag and an action. -/
def mkResAct (status action : String) : WebhookResult :=
  { mkRes status with action := some action }

/-- Intermediate outcome of one webhook delivery: the store (audit row not
yet appended), the outbound calls made, the JSON response, and the
fields written into the audit row. -/
structure Step where
  db : DB
  effects : List Effect
  result : WebhookResult
  logAction : Option String
  logProcessed : Bool
  deriving Repr, DecidableEq

/-- Update the first list entry satisfying `p` (SQLAlchemy
`.filter(...).first()` followed by a mutation). -/
def updateFirst (p : α → Bool) (f : α → α) : List α → List α
  | [] => []
  | x :: xs => if p x then f x :: xs else x :: updateFirst p f xs

/-- Python truthiness of the extracted message id. -/
def msgIdTruthy (p : Payload) : Option String :=
  match p.messageId with
  | some s => if s == "" then none else some s
  | none => none

/-- Delivery-status transition applied to a matched ticket message. -/
def applyTicketMsgStatus (now : Nat) (eventType : String) (tm : TicketMessage) :
    TicketMessage :=
  if eventType == "sentMessageDELIVERED" || eventType == "delivered" then
    { tm with deliveryStatus := "delivered", deliveredAt := some now }
  else if eventType == "sentMessageREAD" || eventType == "read" then
    { tm with deliveryStatus := "read", readAt := some now }
  else if eventType == "templateMessageFailed" || eventType == "failed" then
    { tm with deliveryStatus := "failed" }
  else tm

/-- Delivery-status transition applied to a matched broadcast row. -/
def applyBroadcastStatus (now : Nat) (p : Payload) (b : Broadcast) : Broadcast :=
  if p.eventType == "sentMessageDELIVERED" || p.eventType == "delivered" then
    { b with status := "delivered", deliveredAt := some now }
  else if p.eventType == "sentMessageREAD" || p.eventType == "read" then
    { b with status := "read", readAt := some now }
  else if p.eventType == "templateMessageFailed" || p.eventType == "failed" then
    { b with
      status := "failed"
      failedAt := some now
      failureReason := some ((pyOrOpt p.failedDetail (pyOrOpt p.errorMessage (some "Unknown"))).getD "") }
  else b

/-- The delivery-status prologue of the webhook.  Returns `none` when the
handler falls through to normal processing (not a status event, falsy
message id, or no matching row). -/
def handleStatusUpdate (now : Nat) (p : Payload) (db : DB) : Option Step :=
  if statusEventTypes.contains p.eventType then
    match msgIdTruthy p with
    | none => none
    | some mid =>
      if db.ticketMessages.any (fun tm => tm.watiMessageId == some mid) then
        some { db := { db with ticketMessages := (updateFirst
                 (fun tm => tm.watiMessageId == some mid)
                 (applyTicketMsgStatus now p.eventType) db.ticketMessages) },
               effects := [],
               result := mkResAct "processed" ("ticket_message_" ++ p.eventType),
               logAction := some ("ticket_message_" ++ p.eventType),
               logProcessed := true }
      else if db.broadcasts.any (fun b => b.watiMessageId == some mid) then
        some { db := { db with broadcasts := (updateFirst
                 (fun b => b.watiMessageId == some mid)
                 (applyBroadcastStatus now p) db.broadcasts) },
               effects := [],
               result := mkResAct "processed" ("broadcast_" ++ p.eventType),
               logAction := some ("broadcast_" ++ p.eventType),
               logProcessed := true }
      else none
  else none

/-- Enrollment-confirmation block of the outgoing branch. -/
def enrollmentUpdate (messageLower : String) (u0 : User) : User :=
  if strContains messageLower "thrilled to inform" &&
     strContains messageLower "registration" then
    let v := { u0 with participationLevel := "Enrolled Participant" }
    if strContains messageLower "leadership essentials" then add_enrolled_program "LEP" v
    else if strContains messageLower "100 board" then add_enrolled_program "100BM" v
    else if strContains messageLower "business warfare" || strContains messageLower "mbw" then
      add_enrolled_program "MBW" v
    else if strContains messageLower "masterclass" then add_enrolled_program "Masterclass" v
    else v
  else u0

/-- Welcome-message participation marker of the outgoing branch. -/
def welcomeUpdate (messageLower : String) (u : User) : User :=
  if strContains messageLower "welcome to the iron lady platform" then
    { u with participationLevel := "New to platform" }
  else u

/-- Ask-a-question participation marker of the outgoing branch. -/
def askUpdate (messageLower : String) (u : User) : User :=
  if strContains messageLower "ask a question here" then
    { u with participationLevel := "Enrolled Participant" }
  else u

/-- The user-field updates of the outgoing-message branch
(enrollment confirmations and participation markers), in source order. -/
def outgoingUpdates (messageLower : String) (u0 : User) : User :=
  askUpdate messageLower (welcomeUpdate messageLower (enrollmentUpdate messageLower u0))

/-- Course-interest counters bumped by recognized outgoing course blurbs. -/
def outgoingCourseInterest (now : Nat) (db : DB) (userId : Nat)
    (messageLower : String) : DB :=
  if strContains messageLower "leadership essentials program enables you to master" then
    update_course_interest now db userId "LEP"
  else if strContains messageLower "100 board members program enables you to focus" then
    update_course_interest now db userId "100BM"
  else if strContains messageLower "master of business warfare focuses on winning" then
    update_course_interest now db userId "MBW"
  else if strContains messageLower "iron lady leadership masterclass helps you" then
    update_course_interest now db userId "Masterclass"
  else db

/-- Store after the outgoing-message branch: refresh the user row, apply
the participation/enrollment updates, then the course-interest counters. -/
def outgoingDB (now : Nat) (senderName : Option String) (waNumber messageLower : String)
    (db : DB) : DB :=
  outgoingCourseInterest now
    { (get_or_create_user now db waNumber senderName none).fst with
      users := (updUser
        (get_or_create_user now db waNumber senderName none).fst.users
        (get_or_create_user now db waNumber senderName none).snd.id
        (outgoingUpdates messageLower)) }
    (get_or_create_user now db waNumber senderName none).snd.id messageLower

/-- The outgoing-message branch of the webhook. -/
def handleOutgoing (now : Nat) (senderName : Option String) (waNumber messageLower : String)
    (db : DB) : Step :=
  { db := outgoingDB now senderName waNumber messageLower db,
    effects := [], result := mkResAct "processed" "bot_message_logged",
    logAction := none, logProcessed := true }

def defaultOperatorEmail : String := "Admin@iamironlady.com"

def ticketCreatedText (ticketNumber category : String) : String :=
  "✅ Your ticket " ++ ticketNumber ++ " has been created for this " ++ category ++
  ".\n\nOur counsellor will reach out to you within the next 24 hours.\n\nThank you for your patience! 🙏"

def resolvedText (ticketNumber : String) : String :=
  "Thank you for confirming! Your ticket " ++ ticketNumber ++
  " has been resolved.\n\nWe\x27re glad we could help! 💪"

def moreHelpPrompt : String := "Please share what additional help you need:"

def followupConfirmText (ticketNumber : String) : String :=
  "Your ticket " ++ ticketNumber ++
  " is still in progress. Our counsellor will reach you within 24 hours. 🙏"

/-- Ticket creation: the branch taken when the identity's
awaiting-category marker is set. -/
def createTicketStep (now year : Nat) (senderName : Option String)
    (waNumber messageText : String) (db : DB) (user : User) : Step :=
  let category := user.awaitingTicketType.getD ""
  let gen := generate_ticket_number db.counters year
  let ticketNumber := gen.fst
  let db1 := { db with counters := gen.snd }
  let ticket : Ticket :=
    { id := db1.tickets.length, ticketNumber := ticketNumber, userId := user.id,
      category := category, initialMessage := messageText, status := "pending",
      createdAt := now, resolvedAt := none, lastUserMessageAt := some now,
      lastCounsellorReplyAt := none }
  let tm : TicketMessage :=
    { ticketId := ticket.id, direction := "incoming", messageType := "text",
      messageText := messageText, watiMessageId := none, deliveryStatus := "sent",
      sentBy := senderName, deliveredAt := none, readAt := none }
  let db2 := { db1 with
    tickets := db1.tickets ++ [ticket],
    ticketMessages := db1.ticketMessages ++ [tm] }
  let db3 := { db2 with users := (updUser db2.users user.id
    (fun u => { u with awaitingTicketType := none, hasActiveTicket := true })) }
  { db := db3,
    effects := [Effect.assignOperator waNumber defaultOperatorEmail,
                Effect.sendText waNumber (ticketCreatedText ticketNumber category)],
    result := { mkRes "ticket_created" with
                ticketNumber := some ticketNumber, category := some category },
    logAction := some ("ticket_created_" ++ ticketNumber),
    logProcessed := true }

/-- The active-ticket branch: satisfaction handling, chatbot-echo guard,
then transcript follow-up. -/
def activeTicketStep (now : Nat) (senderName : Option String)
    (waNumber messageText messageLower : String)
    (db : DB) (user : User) (ticket : Ticket) : Step :=
  match is_satisfaction_response messageText with
  | some true =>
    let db1 := { db with
      tickets := db.tickets.map (fun t =>
        if t.id == ticket.id then { t with status := "resolved", resolvedAt := some now } else t),
      users := updUser db.users user.id (fun u => { u with hasActiveTicket := false }) }
    { db := db1,
      effects := [Effect.sendText waNumber (resolvedText ticket.ticketNumber),
                  Effect.unassignOperator waNumber],
      result := { mkRes "ticket_resolved" with ticketNumber := some ticket.ticketNumber },
      logAction := some ("ticket_resolved_" ++ ticket.ticketNumber),
      logProcessed := true }
  | some false =>
    let tm : TicketMessage :=
      { ticketId := ticket.id, direction := "incoming", messageType := "text",
        messageText := "[User requested more help]", watiMessageId := none,
        deliveryStatus := "sent", sentBy := senderName,
        deliveredAt := none, readAt := none }
    let db1 := { db with
      ticketMessages := db.ticketMessages ++ [tm],
      tickets := db.tickets.map (fun t =>
        if t.id == ticket.id then
          { t with lastUserMessageAt := some now, status := "awaiting" } else t) }
    { db := db1,
      effects := [Effect.sendText waNumber moreHelpPrompt],
      result := mkRes "need_more_help",
      logAction := some ("need_more_help_" ++ ticket.ticketNumber),
      logProcessed := true }
  | none =>
    if CHATBOT_BUTTONS.any (fun btn => strContains messageLower btn) then
      { db := db, effects := [], result := mkRes "chatbot_button_ignored",
        logAction := some "chatbot_button_ignored", logProcessed := true }
    else
      let tm : TicketMessage :=
        { ticketId := ticket.id, direction := "incoming", messageType := "text",
          messageText := messageText, watiMessageId := none, deliveryStatus := "sent",
          sentBy := senderName, deliveredAt := none, readAt := none }
      let db1 := { db with ticketMessages := db.ticketMessages ++ [tm] }
      if ticket.status == "awaiting" then
        let db2 := { db1 with tickets := db1.tickets.map (fun t =>
          if t.id == ticket.id then
            { t with lastUserMessageAt := some now, status := "pending" } else t) }
        { db := db2,
          effects := [Effect.sendText waNumber (followupConfirmText ticket.ticketNumber)],
          result := { mkRes "followup_added" with ticketNumber := some ticket.ticketNumber },
          logAction := some ("ticket_followup_confirmed_" ++ ticket.ticketNumber),
          logProcessed := true }
      else
        let db2 := { db1 with tickets := db1.tickets.map (fun t =>
          if t.id == ticket.id then { t with lastUserMessageAt := some now } else t) }
        { db := db2, effects := [],
          result := { mkRes "followup_added" with ticketNumber := some ticket.ticketNumber },
          logAction := some ("ticket_followup_silent_" ++ ticket.ticketNumber),
          logProcessed := true }

/-- The no-ticket-context tail: email capture (unconditional overwrite),
casual-message filter, plain logging. -/
def noTicketStep (messageText : String) (db : DB) (user : User) : Step :=
  match extract_email messageText with
  | some email =>
    { db := { db with users := updUser db.users user.id (fun u => { u with email := some email }) },
      effects := [],
      result := { mkResAct "processed" "email_captured" with email := some email },
      logAction := some "email_captured", logProcessed := true }
  | none =>
    if should_ignore_message messageText then
      { db := db, effects := [], result := mkResAct "processed" "casual_ignored",
        logAction := some "casual_ignored", logProcessed := true }
    else
      { db := db, effects := [], result := mkResAct "processed" "message_logged",
        logAction := some "message_logged", logProcessed := true }

/-- The incoming-message branch: query/concern buttons first, then ticket
creation while awaiting, then the active-ticket branch, then the
no-ticket tail. -/
def handleIncoming (now year : Nat) (senderName : Option String)
    (waNumber messageText messageLower : String) (db : DB) : Step :=
  let pr := get_or_create_user now db waNumber senderName none
  let db1 := pr.fst
  let user := pr.snd
  let activeTicket := get_active_ticket_for_user db1 waNumber
  if QUERY_BUTTONS.any (fun btn => strContains messageLower btn) then
    { db := { db1 with users := (updUser db1.users user.id
        (fun u => { u with awaitingTicketType := some "query" })) },
      effects := [], result := mkRes "awaiting_query",
      logAction := some "set_awaiting_query", logProcessed := true }
  else if CONCERN_BUTTONS.any (fun btn => strContains messageLower btn) then
    { db := { db1 with users := (updUser db1.users user.id
        (fun u => { u with awaitingTicketType := some "concern" })) },
      effects := [], result := mkRes "awaiting_concern",
      logAction := some "set_awaiting_concern", logProcessed := true }
  else if user.awaitingTicketType == some "query" || user.awaitingTicketType == some "concern" then
    createTicketStep now year senderName waNumber messageText db1 user
  else
    match activeTicket with
    | some ticket =>
      activeTicketStep now senderName waNumber messageText messageLower db1 user ticket
    | none => noTicketStep messageText db1 user

/-- Plain inbound text payload (used by concrete test inputs). -/
def inbound (waId text : String) : Payload :=
  { waId := waId, senderName := "", eventType := "message", text := text,
    buttonText := "", messageId := none, ownerFlag := false,
    failedDetail := none, errorMessage := none }

/-- Inbound text payload carrying a provider message id. -/
def inboundWithId (waId text mid : String) : Payload :=
  { inbound waId text with messageId := some mid }

/-- The webhook body after the audit row has been written: the source's
single `try` block. -/
def webhookBody (now year : Nat) (p : Payload) (db : DB) : Step :=
  let messageText := messageTextOf p
  let messageLower := messageLowerOf p
  match handleStatusUpdate now p db with
  | some step => step
  | none =>
    if p.waId == "" then
      { db := db, effects := [],
        result := { mkRes "ignored" with reason := some "No phone number" },
        logAction := some "ignored_no_phone", logProcessed := true }
    else
      let waNumber := waNumberOf p
      if isOutgoingOf p && messageText != "" then
        handleOutgoing now (senderNameOf p) waNumber messageLower db
      else if !(isOutgoingOf p) && messageText != "" then
        handleIncoming now year (senderNameOf p) waNumber messageText messageLower db
      else
        { db := db, effects := [], result := mkResAct "processed" "logged",
          logAction := some "logged", logProcessed := true }

/-- `wati_webhook` on the fault-free path: write the audit row, run the
body, record the outcome in the audit row. -/
def wati_webhook (now year : Nat) (p : Payload) (db : DB) :
    DB × List Effect × WebhookResult :=
  let step := webhookBody now year p db
  let log : WebhookLog :=
    { eventType := p.eventType, phoneNumber := p.waId, isOutgoing := isOutgoingOf p,
      processed := step.logProcessed, actionTaken := step.logAction }
  ({ step.db with logs := step.db.logs ++ [log] }, step.effects, step.result)

/-- Fold a timed sequence of webhook deliveries over the store. -/
def processAll (year : Nat) (events : List (Nat × Payload)) (db : DB) : DB :=
  events.foldl (fun d e => (wati_webhook e.fst year e.snd d).fst) db

/-! ## Ingress fault model -/

/-- Injected failure: none, a store failure while committing the audit
row (which happens before the `try` block), or an exception raised
anywhere inside the `try` block. -/
inductive Fault
  | noFault
  | atAuditLogCommit
  | inBody (errMessage : String)
  deriving Repr, DecidableEq

/-- HTTP-level outcome: a 200 response with a JSON body, or an exception
escaping the handler (which the framework maps to a 5xx response). -/
inductive HttpOutcome
  | ok (result : WebhookResult)
  | unhandledException (errMessage : String)
  deriving Repr, DecidableEq

/-- Python `str(e)[:80]`. -/
def pyTruncate80 (s : String) : String := String.mk (s.toList.take 80)

/-- `wati_webhook` with fault injection, mirroring the handler's
exception structure: the audit-row write sits before the `try` block, so
a failure there escapes; an exception inside the `try` block is caught,
tagged into the audit row and answered with HTTP 200. -/
def wati_webhook_with_fault (fault : Fault) (now year : Nat) (p : Payload)
    (db : DB) : HttpOutcome × DB :=
  match fault with
  | .atAuditLogCommit => (.unhandledException "database error", db)
  | .inBody e =>
    let log : WebhookLog :=
      { eventType := p.eventType, phoneNumber := p.waId, isOutgoing := isOutgoingOf p,
        processed := false, actionTaken := some ("error: " ++ pyTruncate80 e) }
    (.ok { mkRes "error" with errMessage := some e },
     { db with logs := db.logs ++ [log] })
  | .noFault =>
    let out := wati_webhook now year p db
    (.ok out.snd.snd, out.fst)

/-! ## General lemmas about the embedding -/

theorem isPre_refl (l : List Char) : isPre l l = true := by
  induction l with
  | nil => rfl
  | cons a t ih => simp [isPre, ih]

theorem hasSub_refl (l : List Char) : hasSub l l = true := by
  cases l with
  | nil => rfl
  | cons a t => simp [hasSub, isPre_refl]

theorem strContains_refl (s : String) : strContains s s = true :=
  hasSub_refl s.toList

theorem find?_updUser_id (l : List User) (uid0 : Nat) (f : User → User)
    (hid : ∀ v, (f v).id = v.id) (q : Nat) :
    (updUser l uid0 f).find? (fun v => v.id == q) =
      (l.find? (fun v => v.id == q)).map (fun v => if v.id == uid0 then f v else v) := by
  unfold updUser
  rw [List.find?_map]
  have hpred : ((fun v => v.id == q) ∘ fun v => if v.id == uid0 then f v else v)
      = fun v => v.id == q := by
    funext v
    by_cases h : v.id == uid0 <;> simp [Function.comp, h, hid]
  rw [hpred]

theorem find?_updUser_phone (l : List User) (uid0 : Nat) (f : User → User)
    (hph : ∀ v, (f v).phone = v.phone) (ph : String) :
    (updUser l uid0 f).find? (fun v => v.phone == ph) =
      (l.find? (fun v => v.phone == ph)).map (fun v => if v.id == uid0 then f v else v) := by
  unfold updUser
  rw [List.find?_map]
  have hpred : ((fun v => v.phone == ph) ∘ fun v => if v.id == uid0 then f v else v)
      = fun v => v.phone == ph := by
    funext v
    by_cases h : v.id == uid0 <;> simp [Function.comp, h, hph]
  rw [hpred]

theorem gocuUpdate_name_of_truthy (now : Nat) (n e : Option String) (u : User)
    (h : optTruthy u.name = true) : (gocuUpdate now n e u).name = u.name := by
  simp [gocuUpdate, h]

/-- `get_or_create_user` on a phone that already has a row. -/
theorem gocu_found (now : Nat) (db : DB) (wa : String) (n e : Option String) (u : User)
    (h : db.users.find? (fun v => v.phone == normalizePhone wa) = some u) :
    get_or_create_user now db wa n e =
      ({ db with users := updUser db.users u.id (gocuUpdate now n e) },
       gocuUpdate now n e u) := by
  simp [get_or_create_user, h]

/-- Looking the user up again after `get_or_create_user` updated the
existing row finds the updated row, with the same id. -/
theorem find?_phone_after_gocu (now : Nat) (db : DB) (wa : String)
    (n e : Option String) (u : User)
    (h : db.users.find? (fun v => v.phone == normalizePhone wa) = some u) :
    (updUser db.users u.id (gocuUpdate now n e)).find?
        (fun v => v.phone == normalizePhone wa) = some (gocuUpdate now n e u) := by
  rw [find?_updUser_phone db.users u.id (gocuUpdate now n e) (fun v => rfl)
    (normalizePhone wa), h]
  simp

/-- The active-ticket lookup is unchanged by the user-row refresh of
`get_or_create_user` (found case). -/
theorem active_after_gocu (now : Nat) (db : DB) (wa : String)
    (n e : Option String) (u : User)
    (h : db.users.find? (fun v => v.phone == normalizePhone wa) = some u) :
    get_active_ticket_for_user (get_or_create_user now db wa n e).fst wa =
      get_active_ticket_for_user db wa := by
  rw [gocu_found now db wa n e u h]
  unfold get_active_ticket_for_user
  simp only
  rw [find?_phone_after_gocu now db wa n e u h, h]
  rfl

/-! ### Name-preservation machinery -/

/-- Every user row that currently has a truthy display name keeps exactly
that name (looked up by id). -/
def keepsNames (l l' : List User) : Prop :=
  ∀ uid u, l.find? (fun v => v.id == uid) = some u → optTruthy u.name = true →
    ∃ u', l'.find? (fun v => v.id == uid) = some u' ∧ u'.name = u.name

theorem keepsNames_refl (l : List User) : keepsNames l l :=
  fun _ u h _ => ⟨u, h, rfl⟩

theorem keepsNames_trans {a b c : List User}
    (h1 : keepsNames a b) (h2 : keepsNames b c) : keepsNames a c := by
  intro uid u hf hn
  obtain ⟨u1, hf1, hn1⟩ := h1 uid u hf hn
  obtain ⟨u2, hf2, hn2⟩ := h2 uid u1 hf1 (by rw [hn1]; exact hn)
  exact ⟨u2, hf2, hn2.trans hn1⟩

theorem keepsNames_updUser (l : List User) (uid0 : Nat) (f : User → User)
    (hid : ∀ v, (f v).id = v.id)
    (hn : ∀ v, optTruthy v.name = true → (f v).name = v.name) :
    keepsNames l (updUser l uid0 f) := by
  intro uid u hf htr
  by_cases h : u.id == uid0
  · refine ⟨f u, ?_, hn u htr⟩
    rw [find?_updUser_id l uid0 f hid uid, hf, Option.map_some', if_pos h]
  · refine ⟨u, ?_, rfl⟩
    rw [find?_updUser_id l uid0 f hid uid, hf, Option.map_some', if_neg h]

theorem keepsNames_append (l l₂ : List User) : keepsNames l (l ++ l₂) := by
  intro uid u hf htr
  exact ⟨u, by rw [List.find?_append, hf]; rfl, rfl⟩

theorem keepsNames_gocu (now : Nat) (db : DB) (wa : String) (n e : Option String) :
    keepsNames db.users (get_or_create_user now db wa n e).fst.users := by
  cases h : db.users.find? (fun v => v.phone == normalizePhone wa) with
  | none =>
    have hu : (get_or_create_user now db wa n e).fst.users =
        db.users ++ [(get_or_create_user now db wa n e).snd] := by
      simp [get_or_create_user, h]
    rw [hu]
    exact keepsNames_append db.users _
  | some u =>
    rw [gocu_found now db wa n e u h]
    exact keepsNames_updUser db.users u.id _ (fun v => rfl)
      (fun v hv => gocuUpdate_name_of_truthy now n e v hv)

/-! ### Per-branch frame lemmas -/

theorem length_updateFirst (p : α → Bool) (f : α → α) (l : List α) :
    (updateFirst p f l).length = l.length := by
  induction l with
  | nil => rfl
  | cons x xs ih =>
    unfold updateFirst
    split <;> simp [ih]

theorem handleStatusUpdate_spec (now : Nat) (p : Payload) (db : DB) (s : Step)
    (h : handleStatusUpdate now p db = some s) :
    s.db.users = db.users ∧ s.db.tickets = db.tickets ∧
    s.result.status = "processed" := by
  unfold handleStatusUpdate at h
  split at h
  · split at h
    · cases h
    · split at h
      · cases h
        exact ⟨rfl, rfl, rfl⟩
      · split at h
        · cases h
          exact ⟨rfl, rfl, rfl⟩
        · cases h
  · cases h

theorem gocu_frame (now : Nat) (db : DB) (wa : String) (n e : Option String) :
    (get_or_create_user now db wa n e).fst.tickets = db.tickets ∧
    (get_or_create_user now db wa n e).fst.ticketMessages = db.ticketMessages ∧
    (get_or_create_user now db wa n e).fst.counters = db.counters := by
  simp only [get_or_create_user]
  split <;> exact ⟨rfl, rfl, rfl⟩

theorem update_course_interest_frame (now : Nat) (db : DB) (uid : Nat) (c : String) :
    (update_course_interest now db uid c).users = db.users ∧
    (update_course_interest now db uid c).tickets = db.tickets ∧
    (update_course_interest now db uid c).ticketMessages = db.ticketMessages := by
  unfold update_course_interest
  split <;> exact ⟨rfl, rfl, rfl⟩

theorem outgoingCourseInterest_frame (now : Nat) (db : DB) (uid : Nat) (ml : String) :
    (outgoingCourseInterest now db uid ml).users = db.users ∧
    (outgoingCourseInterest now db uid ml).tickets = db.tickets ∧
    (outgoingCourseInterest now db uid ml).ticketMessages = db.ticketMessages := by
  unfold outgoingCourseInterest
  split
  · exact update_course_interest_frame ..
  · split
    · exact update_course_interest_frame ..
    · split
      · exact update_course_interest_frame ..
      · split
        · exact update_course_interest_frame ..
        · exact ⟨rfl, rfl, rfl⟩

theorem add_enrolled_program_id (pr : String) (u : User) :
    (add_enrolled_program pr u).id = u.id := by
  unfold add_enrolled_program
  repeat' split
  all_goals rfl

theorem add_enrolled_program_name (pr : String) (u : User) :
    (add_enrolled_program pr u).name = u.name := by
  unfold add_enrolled_program
  repeat' split
  all_goals rfl

theorem add_enrolled_program_email (pr : String) (u : User) :
    (add_enrolled_program pr u).email = u.email := by
  unfold add_enrolled_program
  repeat' split
  all_goals rfl

theorem enrollmentUpdate_id (ml : String) (v : User) :
    (enrollmentUpdate ml v).id = v.id := by
  unfold enrollmentUpdate
  repeat' split
  all_goals simp [add_enrolled_program_id]

theorem enrollmentUpdate_name (ml : String) (v : User) :
    (enrollmentUpdate ml v).name = v.name := by
  unfold enrollmentUpdate
  repeat' split
  all_goals simp [add_enrolled_program_name]

theorem outgoingUpdates_id (ml : String) (v : User) :
    (outgoingUpdates ml v).id = v.id := by
  unfold outgoingUpdates askUpdate welcomeUpdate
  repeat' split
  all_goals simp [enrollmentUpdate_id]

theorem outgoingUpdates_name (ml : String) (v : User) :
    (outgoingUpdates ml v).name = v.name := by
  unfold outgoingUpdates askUpdate welcomeUpdate
  repeat' split
  all_goals simp [enrollmentUpdate_name]

theorem handleOutgoing_spec (now : Nat) (sn : Option String) (wa ml : String) (db : DB) :
    keepsNames db.users (handleOutgoing now sn wa ml db).db.users ∧
    (handleOutgoing now sn wa ml db).db.tickets = db.tickets ∧
    (handleOutgoing now sn wa ml db).db.ticketMessages = db.ticketMessages ∧
    (handleOutgoing now sn wa ml db).result.status = "processed" ∧
    (handleOutgoing now sn wa ml db).effects = [] := by
  have hdb : (handleOutgoing now sn wa ml db).db = outgoingDB now sn wa ml db := rfl
  refine ⟨?_, ?_, ?_, rfl, rfl⟩
  · rw [hdb]
    unfold outgoingDB
    rw [(outgoingCourseInterest_frame ..).1]
    exact keepsNames_trans (keepsNames_gocu now db wa sn none)
      (keepsNames_updUser _ _ _ (outgoingUpdates_id ml) (fun v _ => outgoingUpdates_name ml v))
  · rw [hdb]
    unfold outgoingDB
    rw [(outgoingCourseInterest_frame ..).2.1]
    exact (gocu_frame ..).1
  · rw [hdb]
    unfold outgoingDB
    rw [(outgoingCourseInterest_frame ..).2.2]
    exact (gocu_frame ..).2.1

theorem handleStatusUpdate_none (now : Nat) (p : Payload) (db : DB)
    (h : statusEventTypes.contains p.eventType = false) :
    handleStatusUpdate now p db = none := by
  unfold handleStatusUpdate
  rw [h]
  rfl

/-- The full outcome of the ticket-creation branch, field by field. -/
theorem createTicketStep_spec (now year : Nat) (sn : Option String)
    (wa mt : String) (db : DB) (u : User) :
    (createTicketStep now year sn wa mt db u).db.users =
      updUser db.users u.id
        (fun v => { v with awaitingTicketType := none, hasActiveTicket := true }) ∧
    (createTicketStep now year sn wa mt db u).db.tickets = db.tickets ++
      [{ id := db.tickets.length,
         ticketNumber := (generate_ticket_number db.counters year).fst,
         userId := u.id, category := u.awaitingTicketType.getD "", initialMessage := mt,
         status := "pending", createdAt := now, resolvedAt := none,
         lastUserMessageAt := some now, lastCounsellorReplyAt := none }] ∧
    (createTicketStep now year sn wa mt db u).db.ticketMessages = db.ticketMessages ++
      [{ ticketId := db.tickets.length, direction := "incoming", messageType := "text",
         messageText := mt, watiMessageId := none, deliveryStatus := "sent",
         sentBy := sn, deliveredAt := none, readAt := none }] ∧
    (createTicketStep now year sn wa mt db u).db.counters =
      (generate_ticket_number db.counters year).snd ∧
    (createTicketStep now year sn wa mt db u).effects =
      [Effect.assignOperator wa defaultOperatorEmail,
       Effect.sendText wa (ticketCreatedText (generate_ticket_number db.counters year).fst
         (u.awaitingTicketType.getD ""))] ∧
    (createTicketStep now year sn wa mt db u).result =
      { mkRes "ticket_created" with
        ticketNumber := some (generate_ticket_number db.counters year).fst,
        category := some (u.awaitingTicketType.getD "") } :=
  ⟨rfl, rfl, rfl, rfl, rfl, rfl⟩

theorem activeTicketStep_frame (now : Nat) (sn : Option String) (wa mt ml : String)
    (db : DB) (u : User) (tk : Ticket) :
    keepsNames db.users (activeTicketStep now sn wa mt ml db u tk).db.users ∧
    (activeTicketStep now sn wa mt ml db u tk).db.tickets.length = db.tickets.length ∧
    (activeTicketStep now sn wa mt ml db u tk).result.status ≠ "duplicate" := by
  unfold activeTicketStep
  split
  · exact ⟨keepsNames_updUser _ _ _ (fun v => rfl) (fun v _ => rfl),
      by simp, by simp [mkRes]⟩
  · exact ⟨keepsNames_refl _, by simp, by simp [mkRes]⟩
  · split
    · exact ⟨keepsNames_refl _, rfl, by simp [mkRes]⟩
    · split
      · exact ⟨keepsNames_refl _, by simp, by simp [mkRes]⟩
      · exact ⟨keepsNames_refl _, by simp, by simp [mkRes]⟩

theorem noTicketStep_frame (mt : String) (db : DB) (u : User) :
    keepsNames db.users (noTicketStep mt db u).db.users ∧
    (noTicketStep mt db u).db.tickets = db.tickets ∧
    (noTicketStep mt db u).result.status = "processed" := by
  unfold noTicketStep
  split
  · exact ⟨keepsNames_updUser _ _ _ (fun v => rfl) (fun v _ => rfl), rfl, rfl⟩
  · split
    · exact ⟨keepsNames_refl _, rfl, rfl⟩
    · exact ⟨keepsNames_refl _, rfl, rfl⟩

theorem handleIncoming_frame (now year : Nat) (sn : Option String)
    (wa mt ml : String) (db : DB) :
    keepsNames db.users (handleIncoming now year sn wa mt ml db).db.users ∧
    ((handleIncoming now year sn wa mt ml db).db.tickets.length = db.tickets.length ∨
      (handleIncoming now year sn wa mt ml db).result.status = "ticket_created") ∧
    (handleIncoming now year sn wa mt ml db).result.status ≠ "duplicate" := by
  simp only [handleIncoming]
  split
  · refine ⟨?_, Or.inl ?_, by simp [mkRes]⟩
    · exact keepsNames_trans (keepsNames_gocu now db wa sn none)
        (keepsNames_updUser _ _ _ (fun v => rfl) (fun v _ => rfl))
    · rw [(gocu_frame now db wa sn none).1]
  · split
    · refine ⟨?_, Or.inl ?_, by simp [mkRes]⟩
      · exact keepsNames_trans (keepsNames_gocu now db wa sn none)
          (keepsNames_updUser _ _ _ (fun v => rfl) (fun v _ => rfl))
      · rw [(gocu_frame now db wa sn none).1]
    · split
      · refine ⟨?_, Or.inr rfl, by
          rw [(createTicketStep_spec ..).2.2.2.2.2]; simp [mkRes]⟩
        rw [(createTicketStep_spec ..).1]
        exact keepsNames_trans (keepsNames_gocu now db wa sn none)
          (keepsNames_updUser _ _ _ (fun v => rfl) (fun v _ => rfl))
      · split
        · refine ⟨?_, Or.inl ?_, (activeTicketStep_frame ..).2.2⟩
          · exact keepsNames_trans (keepsNames_gocu now db wa sn none)
              (activeTicketStep_frame ..).1
          · rw [(activeTicketStep_frame ..).2.1, (gocu_frame now db wa sn none).1]
        · refine ⟨?_, Or.inl ?_, ?_⟩
          · exact keepsNames_trans (keepsNames_gocu now db wa sn none)
              (noTicketStep_frame ..).1
          · rw [(noTicketStep_frame ..).2.1, (gocu_frame now db wa sn none).1]
          · rw [(noTicketStep_frame ..).2.2]
            simp

theorem webhookBody_frame (now year : Nat) (p : Payload) (db : DB) :
    keepsNames db.users (webhookBody now year p db).db.users ∧
    ((webhookBody now year p db).db.tickets.length = db.tickets.length ∨
      (webhookBody now year p db).result.status = "ticket_created") ∧
    (webhookBody now year p db).result.status ≠ "duplicate" := by
  simp only [webhookBody]
  split
  · next s hs =>
    obtain ⟨h1, h2, h3⟩ := handleStatusUpdate_spec now p db s hs
    exact ⟨by rw [h1]; exact keepsNames_refl _, Or.inl (by rw [h2]), by rw [h3]; simp⟩
  · split
    · exact ⟨keepsNames_refl _, Or.inl rfl, by simp [mkRes]⟩
    · split
      · obtain ⟨g1, g2, g3, g4, g5⟩ := handleOutgoing_spec now (senderNameOf p)
          (waNumberOf p) (messageLowerOf p) db
        exact ⟨g1, Or.inl (by rw [g2]), by rw [g4]; simp⟩
      · split
        · obtain ⟨g1, g2, g3⟩ := handleIncoming_frame now year (senderNameOf p)
            (waNumberOf p) (messageTextOf p) (messageLowerOf p) db
          exact ⟨g1, g2, g3⟩
        · exact ⟨keepsNames_refl _, Or.inl rfl, by simp [mkRes, mkResAct]⟩

theorem wati_webhook_frame (now year : Nat) (p : Payload) (db : DB) :
    keepsNames db.users (wati_webhook now year p db).fst.users ∧
    ((wati_webhook now year p db).fst.tickets.length = db.tickets.length ∨
      (wati_webhook now year p db).snd.snd.status = "ticket_created") ∧
    (wati_webhook now year p db).snd.snd.status ≠ "duplicate" := by
  obtain ⟨h1, h2, h3⟩ := webhookBody_frame now year p db
  exact ⟨h1, h2, h3⟩

/-! ## Claim theorems -/

/-- Shared provider response standing for a successful HTTP 200 send. -/
def okResp : WatiHttpResponse :=
  { statusCode := 200, resultFlag := true, statusString := none,
    messageId := some "wamid-99", whatsappMessageId := none, message := none }

def c1db : DB := processAll 2025
  [(100, inbound "919111111111" "i have a query"),
   (200, inbound "919111111111" "first issue"),
   (300, inbound "919111111111" "i have a query"),
   (400, inbound "919111111111" "second issue")] DB.empty

/-- C1: the claim (and the spec invariant) says the handler checks for an
existing active ticket before creating a new one and rejects/merges a
second active ticket.  The code has no such check: the ticket-creation
branch fires whenever the awaiting-category marker is set, and the
query/concern button branches set that marker even while a ticket is
active.  Replaying the four-delivery sequence (query button, text, query
button again, text) for one phone number leaves the single identity with
two tickets in non-resolved (`pending`) status at once. -/
theorem C1_two_active_tickets :
    c1db.users.length = 1 ∧
    (c1db.tickets.filter (fun t => t.userId == 0 && !(t.status == "resolved"))).map
        (fun t => (t.ticketNumber, t.status)) =
      [("TKT-2025-0001", "pending"), ("TKT-2025-0002", "pending")] := by decide

def c2Phone : String := "919222233344"

def c2Setup : DB := processAll 2025
  [(100, inbound c2Phone "i have a query"),
   (200, inbound c2Phone "my bill is wrong")] DB.empty

def c2Payload : Payload := inboundWithId c2Phone "please check again" "wamid-1"

def c2Once : DB := (wati_webhook 300 2025 c2Payload c2Setup).fst

/-- C2 counterexample: a payload with non-empty provider message id
`wamid-1` delivered a second time is fully processed again — the second
delivery appends a second transcript row and reports `followup_added`,
not a no-op "duplicate" outcome.  No inbound-id memory exists in the
code. -/
theorem C2_counterexample :
    msgIdTruthy c2Payload = some "wamid-1" ∧
    (wati_webhook 310 2025 c2Payload c2Once).snd.snd.status = "followup_added" ∧
    ((wati_webhook 310 2025 c2Payload c2Once).fst.ticketMessages.filter
      (fun m => m.messageText == "please check again")).length = 2 := by decide

/-- C2 amended: webhook processing performs no deduplication on the
provider message id.  No input ever yields a "duplicate" outcome, and
for non-status events the entire outcome is independent of the message
id (the id is only consulted for delivery-status correlation), so a
redelivered payload is processed exactly like the first delivery. -/
theorem C2_no_inbound_dedup :
    (∀ (now year : Nat) (p : Payload) (db : DB),
      (wati_webhook now year p db).snd.snd.status ≠ "duplicate") ∧
    (∀ (now year : Nat) (p : Payload) (db : DB) (mid mid2 : Option String),
      statusEventTypes.contains p.eventType = false →
      wati_webhook now year { p with messageId := mid } db =
        wati_webhook now year { p with messageId := mid2 } db) := by
  constructor
  · intro now year p db
    exact (wati_webhook_frame now year p db).2.2
  · intro now year p db mid mid2 h
    cases p with
    | mk waId senderName eventType text buttonText messageId ownerFlag failedDetail errorMessage =>
      have h1 : statusEventTypes.contains (Payload.mk waId senderName eventType text
          buttonText mid ownerFlag failedDetail errorMessage).eventType = false := h
      have h2 : statusEventTypes.contains (Payload.mk waId senderName eventType text
          buttonText mid2 ownerFlag failedDetail errorMessage).eventType = false := h
      dsimp only
      unfold wati_webhook webhookBody
      rw [handleStatusUpdate_none _ _ _ h1, handleStatusUpdate_none _ _ _ h2]
      rfl

/-- C2 witness for the amended theorem's hypothesis. -/
theorem C2_no_inbound_dedup_witness :
    (wati_webhook 310 2025 c2Payload c2Once).snd.snd.status ≠ "duplicate" ∧
    (statusEventTypes.contains c2Payload.eventType = false ∧
      wati_webhook 310 2025 { c2Payload with messageId := some "wamid-1" } c2Once =
        wati_webhook 310 2025 { c2Payload with messageId := some "other" } c2Once) :=
  ⟨C2_no_inbound_dedup.1 310 2025 c2Payload c2Once,
   by decide,
   C2_no_inbound_dedup.2 310 2025 c2Payload c2Once (some "wamid-1") (some "other") (by decide)⟩

/-- C3 counterexample: two identical text sends to the same phone ten
seconds apart are both transmitted to the provider (two `sendText`
effects), and the second result carries the provider message id of a
real transmission rather than the suppressed success-without-id outcome
the claim describes.  The gateway has no outbound-fingerprint memory. -/
theorem C3_counterexample :
    (runTextSends "token-abc"
      [{ atTime := 1000, phone := "919111111111", message := "A", resp := okResp },
       { atTime := 1010, phone := "919111111111", message := "A", resp := okResp }]).snd =
      [Effect.sendText "919111111111" "A", Effect.sendText "919111111111" "A"] ∧
    (runTextSends "token-abc"
      [{ atTime := 1000, phone := "919111111111", message := "A", resp := okResp },
       { atTime := 1010, phone := "919111111111", message := "A", resp := okResp }]).fst.map
        (fun r => (r.success, r.messageId)) =
      [(true, some "wamid-99"), (true, some "wamid-99")] := by decide

theorem send_wati_message_transmits (token : String) (resp : WatiHttpResponse)
    (ph m : String) (h : (token == "") = false) :
    (send_wati_message token resp ph m).snd.length = 1 := by
  simp only [send_wati_message, h, Bool.false_eq_true, if_false]
  split <;> rfl

/-- C3 amended: `send_wati_message` consults no recency or content
fingerprint: with a configured token, every text-send request results in
exactly one provider transmission, whatever was sent before and
whenever. -/
theorem C3_every_send_transmits (token : String) (reqs : List SendReq)
    (h : token ≠ "") :
    (runTextSends token reqs).snd.length = reqs.length := by
  have hb : (token == "") = false := by
    simp [h]
  induction reqs with
  | nil => rfl
  | cons r rs ih =>
    unfold runTextSends
    rw [List.length_append, send_wati_message_transmits token r.resp r.phone r.message hb, ih]
    simp [Nat.add_comm]

/-- C3 witness: the amended theorem at the counterexample's two requests. -/
theorem C3_every_send_transmits_witness :
    "token-abc" ≠ "" ∧
    (runTextSends "token-abc"
      [{ atTime := 1000, phone := "919111111111", message := "A", resp := okResp },
       { atTime := 1010, phone := "919111111111", message := "A", resp := okResp }]).snd.length = 2 :=
  ⟨by decide, C3_every_send_transmits "token-abc" _ (by decide)⟩

/-- C8 counterexample: the audit-record write (`db.add(log); db.commit()`)
sits before the handler's `try` block, so a store failure there escapes
the handler as an unhandled exception — the framework answers with a
non-2xx status, contradicting "always HTTP 200" for that input. -/
theorem C8_counterexample :
    (wati_webhook_with_fault .atAuditLogCommit 0 2025
        (inbound "919111111111" "hello there") DB.empty).fst =
      HttpOutcome.unhandledException "database error" ∧
    ∀ r, (wati_webhook_with_fault .atAuditLogCommit 0 2025
        (inbound "919111111111" "hello there") DB.empty).fst ≠ HttpOutcome.ok r :=
  ⟨rfl, fun _ h => HttpOutcome.noConfusion h⟩

/-- C8 amended: once the audit record has been committed, every outcome is
HTTP 200: an exception anywhere inside the `try` block is caught,
recorded in the audit row's outcome tag (`error: ` plus the truncated
message, `processed = false`), and answered with the JSON status
"error"; the fault-free path returns the body's status tag. -/
theorem C8_failures_after_audit_return_200 :
    ∀ (now year : Nat) (p : Payload) (db : DB) (e : String),
      ((wati_webhook_with_fault (.inBody e) now year p db).fst =
        HttpOutcome.ok { mkRes "error" with errMessage := some e }) ∧
      ((wati_webhook_with_fault (.inBody e) now year p db).snd.logs.getLast? =
        some { eventType := p.eventType, phoneNumber := p.waId,
               isOutgoing := isOutgoingOf p, processed := false,
               actionTaken := some ("error: " ++ pyTruncate80 e) }) ∧
      ((wati_webhook_with_fault .noFault now year p db).fst =
        HttpOutcome.ok (wati_webhook now year p db).snd.snd) := by
  intro now year p db e
  exact ⟨rfl, List.getLast?_concat _, rfl⟩

def c5db : DB := processAll 2025 [(100, inbound "919222222222" "i have a query")] DB.empty

def c5payload : Payload := inbound "919222222222" "New to platform"

/-- C5 counterexample: "New to platform" is a chatbot menu label (and
matches no satisfaction phrase and no query/concern button), yet while
the identity's awaiting-category marker is set its delivery creates a
ticket — with the menu label stored as the initial message — and
triggers outbound calls.  The chatbot-echo guard does not outrank the
ticket-creation branch. -/
theorem C5_counterexample :
    CHATBOT_BUTTONS.any (fun b => strContains (messageLowerOf c5payload) b) = true ∧
    is_satisfaction_response (messageTextOf c5payload) = none ∧
    (c5db.users.map User.awaitingTicketType = [some "query"]) ∧
    c5db.tickets.length = 0 ∧
    (wati_webhook 200 2025 c5payload c5db).snd.snd.status = "ticket_created" ∧
    ((wati_webhook 200 2025 c5payload c5db).fst.tickets.map Ticket.initialMessage =
      ["New to platform"]) ∧
    (wati_webhook 200 2025 c5payload c5db).snd.fst ≠ [] := by decide

def c7db : DB := processAll 2025
  [(100, inbound "919555555555" "i have a query"),
   (200, inbound "919555555555" "my bill is wrong"),
   (300, inbound "919555555555" "no")] DB.empty

def c7payload : Payload := inbound "919555555555" "no"

/-- C7 counterexample: the active ticket is already in status "awaiting"
(`AWAITING_SATISFACTION_FOLLOWUP`) after a first satisfaction_no, yet a
second satisfaction_no is not a no-op: another synthetic transcript row
is appended, the last-inbound timestamp moves from 300 to 400, and the
follow-up prompt is sent again. -/
theorem C7_counterexample :
    (c7db.tickets.map (fun t => (t.status, t.lastUserMessageAt)) =
      [("awaiting", some 300)]) ∧
    ((wati_webhook 400 2025 c7payload c7db).fst.ticketMessages.filter
      (fun m => m.messageText == "[User requested more help]")).length = 2 ∧
    (wati_webhook 400 2025 c7payload c7db).snd.fst =
      [Effect.sendText "919555555555" moreHelpPrompt] ∧
    ((wati_webhook 400 2025 c7payload c7db).fst.tickets.map
      (fun t => (t.status, t.lastUserMessageAt)) = [("awaiting", some 400)]) := by decide

def c9db : DB := processAll 2025
  [(100, inbound "919333333333" "reach me at first@mail.com")] DB.empty

/-- C9 counterexample: the no-ticket-context email-capture branch assigns
`user.email = email` unconditionally, so a later message carrying a
different address overwrites the first captured value. -/
theorem C9_counterexample :
    c9db.users.map User.email = [some "first@mail.com"] ∧
    ((wati_webhook 200 2025 (inbound "919333333333" "better use second@mail.org")
        c9db).fst.users.map User.email = [some "second@mail.org"]) := by decide

def c10db : DB := processAll 2025
  [(100, inbound "919444444444" "i have a query"),
   (200, inbound "919444444444" "my bill is wrong")] DB.empty

def c10payload : Payload := inbound "919444444444" "Not resolved"

/-- C10 counterexample: "Not resolved" contains the no-phrase "no" as a
substring (and matches no query/concern button), so the claim's no-rule
predicts the need-more-help branch; but the yes loop runs first and the
yes-phrase "resolved" also occurs as a substring, so the handler
resolves the ticket instead. -/
theorem C10_counterexample :
    strContains (messageLowerOf c10payload) "no" = true ∧
    SATISFACTION_NO_RESPONSES.contains "no" = true ∧
    c10db.tickets.map Ticket.status = ["pending"] ∧
    (wati_webhook 300 2025 c10payload c10db).snd.snd.status = "ticket_resolved" ∧
    (wati_webhook 300 2025 c10payload c10db).fst.tickets.map Ticket.status =
      ["resolved"] := by decide

/-! ### Routing lemmas: reducing the handler to one branch -/

theorem gocuUpdate_awaiting (now : Nat) (n e : Option String) (u : User) :
    (gocuUpdate now n e u).awaitingTicketType = u.awaitingTicketType := rfl

theorem gocuUpdate_id (now : Nat) (n e : Option String) (u : User) :
    (gocuUpdate now n e u).id = u.id := rfl

theorem active_after_gocuUpd (now : Nat) (db : DB) (wa : String)
    (sn e : Option String) (u : User)
    (h : db.users.find? (fun v => v.phone == normalizePhone wa) = some u) :
    get_active_ticket_for_user
        { db with users := updUser db.users u.id (gocuUpdate now sn e) } wa =
      get_active_ticket_for_user db wa := by
  unfold get_active_ticket_for_user
  simp only
  rw [find?_phone_after_gocu now db wa sn e u h, h]
  rfl

/-- With an untouched status event type, a phone number, and inbound
direction with non-empty text, the webhook body is exactly the
incoming-message branch. -/
theorem webhookBody_incoming (now year : Nat) (p : Payload) (db : DB)
    (hstat : statusEventTypes.contains p.eventType = false)
    (hwa : (p.waId == "") = false)
    (hout : isOutgoingOf p = false)
    (htext : (messageTextOf p != "") = true) :
    webhookBody now year p db =
      handleIncoming now year (senderNameOf p) (waNumberOf p) (messageTextOf p)
        (messageLowerOf p) db := by
  simp only [webhookBody, handleStatusUpdate_none now p db hstat, hwa, hout, htext,
    Bool.false_eq_true, if_false, Bool.false_and, Bool.not_false, Bool.true_and, if_true]

/-- With the payload's user found and no query/concern button match, the
incoming branch reduces to awaiting-check / active-ticket dispatch over
the refreshed store. -/
theorem handleIncoming_route (now year : Nat) (sn : Option String) (wa mt ml : String)
    (db : DB) (u : User)
    (hfind : db.users.find? (fun v => v.phone == normalizePhone wa) = some u)
    (hq : QUERY_BUTTONS.any (fun btn => strContains ml btn) = false)
    (hc : CONCERN_BUTTONS.any (fun btn => strContains ml btn) = false) :
    handleIncoming now year sn wa mt ml db =
      (if u.awaitingTicketType == some "query" ∨
          u.awaitingTicketType == some "concern" then
        createTicketStep now year sn wa mt
          { db with users := updUser db.users u.id (gocuUpdate now sn none) }
          (gocuUpdate now sn none u)
      else
        match get_active_ticket_for_user db wa with
        | some tk =>
          activeTicketStep now sn wa mt ml
            { db with users := updUser db.users u.id (gocuUpdate now sn none) }
            (gocuUpdate now sn none u) tk
        | none =>
          noTicketStep mt
            { db with users := updUser db.users u.id (gocuUpdate now sn none) }
            (gocuUpdate now sn none u)) := by
  simp only [handleIncoming, gocu_found now db wa sn none u hfind, hq, hc,
    Bool.false_eq_true, if_false, active_after_gocuUpd now db wa sn none u hfind,
    gocuUpdate_awaiting, Bool.or_eq_true]

/-! ### Branch-outcome equations -/

theorem activeTicketStep_eq_resolved (now : Nat) (sn : Option String)
    (wa mt ml : String) (db : DB) (u : User) (tk : Ticket)
    (hsat : is_satisfaction_response mt = some true) :
    activeTicketStep now sn wa mt ml db u tk =
      { db := { db with
          tickets := (db.tickets.map (fun t =>
            if t.id == tk.id then { t with status := "resolved", resolvedAt := some now }
            else t)),
          users := updUser db.users u.id (fun v => { v with hasActiveTicket := false }) },
        effects := [Effect.sendText wa (resolvedText tk.ticketNumber),
                    Effect.unassignOperator wa],
        result := { mkRes "ticket_resolved" with ticketNumber := some tk.ticketNumber },
        logAction := some ("ticket_resolved_" ++ tk.ticketNumber),
        logProcessed := true } := by
  unfold activeTicketStep
  rw [hsat]

theorem activeTicketStep_eq_needhelp (now : Nat) (sn : Option String)
    (wa mt ml : String) (db : DB) (u : User) (tk : Ticket)
    (hsat : is_satisfaction_response mt = some false) :
    activeTicketStep now sn wa mt ml db u tk =
      { db := { db with
          ticketMessages := db.ticketMessages ++
            [{ ticketId := tk.id, direction := "incoming", messageType := "text",
               messageText := "[User requested more help]", watiMessageId := none,
               deliveryStatus := "sent", sentBy := sn,
               deliveredAt := none, readAt := none }],
          tickets := (db.tickets.map (fun t =>
            if t.id == tk.id then { t with lastUserMessageAt := some now, status := "awaiting" }
            else t)) },
        effects := [Effect.sendText wa moreHelpPrompt],
        result := mkRes "need_more_help",
        logAction := some ("need_more_help_" ++ tk.ticketNumber),
        logProcessed := true } := by
  unfold activeTicketStep
  rw [hsat]

theorem activeTicketStep_eq_menu (now : Nat) (sn : Option String)
    (wa mt ml : String) (db : DB) (u : User) (tk : Ticket)
    (hsat : is_satisfaction_response mt = none)
    (hmenu : CHATBOT_BUTTONS.any (fun btn => strContains ml btn) = true) :
    activeTicketStep now sn wa mt ml db u tk =
      { db := db, effects := [], result := mkRes "chatbot_button_ignored",
        logAction := some "chatbot_button_ignored", logProcessed := true } := by
  unfold activeTicketStep
  rw [hsat]
  simp [hmenu]

theorem noTicketStep_eq_email (mt : String) (db : DB) (u : User) (em : String)
    (hem : extract_email mt = some em) :
    noTicketStep mt db u =
      { db := { db with users := updUser db.users u.id (fun v => { v with email := some em }) },
        effects := [],
        result := { mkResAct "processed" "email_captured" with email := some em },
        logAction := some "email_captured", logProcessed := true } := by
  unfold noTicketStep
  rw [hem]

theorem mem_updUser_setAwait (l : List User) (uid : Nat) :
    ∀ v ∈ updUser l uid
        (fun w => { w with awaitingTicketType := none, hasActiveTicket := true }),
      v.id = uid → v.awaitingTicketType = none ∧ v.hasActiveTicket = true := by
  intro v hv hid
  unfold updUser at hv
  obtain ⟨w, _, rfl⟩ := List.mem_map.mp hv
  by_cases h : w.id == uid
  · simp [h]
  · rw [if_neg h] at hid ⊢
    exact absurd (by simp [hid] : (w.id == uid) = true) h

theorem mem_updUser_setEmail (l : List User) (uid : Nat) (em : String) :
    ∀ v ∈ updUser l uid (fun w => { w with email := some em }),
      v.id = uid → v.email = some em := by
  intro v hv hid
  unfold updUser at hv
  obtain ⟨w, _, rfl⟩ := List.mem_map.mp hv
  by_cases h : w.id == uid
  · simp [h]
  · rw [if_neg h] at hid ⊢
    exact absurd (by simp [hid] : (w.id == uid) = true) h

theorem generate_ticket_number_shape (counters : List (Nat × Nat)) (year : Nat) :
    ∃ n, (generate_ticket_number counters year).fst = mkTicketNumber year n := by
  unfold generate_ticket_number
  cases h : counters.find? (fun c => c.fst == year) with
  | none => exact ⟨1, rfl⟩
  | some c => exact ⟨c.snd + 1, rfl⟩

theorem wati_webhook_parts (now year : Nat) (p : Payload) (db : DB) :
    (wati_webhook now year p db).fst.users = (webhookBody now year p db).db.users ∧
    (wati_webhook now year p db).fst.tickets = (webhookBody now year p db).db.tickets ∧
    (wati_webhook now year p db).fst.ticketMessages =
      (webhookBody now year p db).db.ticketMessages ∧
    (wati_webhook now year p db).fst.counters = (webhookBody now year p db).db.counters ∧
    (wati_webhook now year p db).snd.fst = (webhookBody now year p db).effects ∧
    (wati_webhook now year p db).snd.snd = (webhookBody now year p db).result :=
  ⟨rfl, rfl, rfl, rfl, rfl, rfl⟩

/-- C4: while the identity's awaiting-category marker is set to `query`
or `concern`, any inbound text that matches no query/concern button
creates exactly one ticket carrying the marker as category, the text
verbatim as initial message, status `pending`, the next per-year
sequence number formatted `TKT-YYYY-NNNN`; it writes the first incoming
transcript row, clears the marker, sets the has-open-ticket flag, and
requests operator assignment plus a ticket-created confirmation.  The
final conjunct states this branch is the only ticket-creation path: any
webhook delivery that changes the number of tickets reports
`ticket_created`. -/
theorem C4_awaiting_regular_text_creates_ticket
    (now year : Nat) (p : Payload) (db : DB) (u : User) (cat : String)
    (hstat : statusEventTypes.contains p.eventType = false)
    (hwa : (p.waId == "") = false)
    (hout : isOutgoingOf p = false)
    (htext : (messageTextOf p != "") = true)
    (hfind : db.users.find? (fun v => v.phone == normalizePhone (waNumberOf p)) = some u)
    (hq : QUERY_BUTTONS.any (fun btn => strContains (messageLowerOf p) btn) = false)
    (hc : CONCERN_BUTTONS.any (fun btn => strContains (messageLowerOf p) btn) = false)
    (hawait : u.awaitingTicketType = some cat)
    (hcat : cat = "query" ∨ cat = "concern") :
    (wati_webhook now year p db).snd.snd =
      { mkRes "ticket_created" with
        ticketNumber := some (generate_ticket_number db.counters year).fst,
        category := some cat } ∧
    (wati_webhook now year p db).fst.tickets = db.tickets ++
      [{ id := db.tickets.length,
         ticketNumber := (generate_ticket_number db.counters year).fst,
         userId := u.id, category := cat, initialMessage := messageTextOf p,
         status := "pending", createdAt := now, resolvedAt := none,
         lastUserMessageAt := some now, lastCounsellorReplyAt := none }] ∧
    (wati_webhook now year p db).fst.ticketMessages = db.ticketMessages ++
      [{ ticketId := db.tickets.length, direction := "incoming", messageType := "text",
         messageText := messageTextOf p, watiMessageId := none, deliveryStatus := "sent",
         sentBy := senderNameOf p, deliveredAt := none, readAt := none }] ∧
    (wati_webhook now year p db).fst.counters =
      (generate_ticket_number db.counters year).snd ∧
    (wati_webhook now year p db).snd.fst =
      [Effect.assignOperator (waNumberOf p) defaultOperatorEmail,
       Effect.sendText (waNumberOf p)
         (ticketCreatedText (generate_ticket_number db.counters year).fst cat)] ∧
    (∃ n, (generate_ticket_number db.counters year).fst = mkTicketNumber year n) ∧
    (∀ v ∈ (wati_webhook now year p db).fst.users, v.id = u.id →
      v.awaitingTicketType = none ∧ v.hasActiveTicket = true) ∧
    (∀ (now2 year2 : Nat) (p2 : Payload) (db2 : DB),
      (wati_webhook now2 year2 p2 db2).fst.tickets.length ≠ db2.tickets.length →
      (wati_webhook now2 year2 p2 db2).snd.snd.status = "ticket_created") := by
  have hbody : webhookBody now year p db =
      createTicketStep now year (senderNameOf p) (waNumberOf p) (messageTextOf p)
        { db with users := updUser db.users u.id (gocuUpdate now (senderNameOf p) none) }
        (gocuUpdate now (senderNameOf p) none u) := by
    rw [webhookBody_incoming now year p db hstat hwa hout htext,
      handleIncoming_route now year (senderNameOf p) (waNumberOf p) (messageTextOf p)
        (messageLowerOf p) db u hfind hq hc,
      if_pos (by rcases hcat with h | h <;> simp [hawait, h])]
  obtain ⟨s1, s2, s3, s4, s5, s6⟩ := createTicketStep_spec now year (senderNameOf p)
    (waNumberOf p) (messageTextOf p)
    { db with users := updUser db.users u.id (gocuUpdate now (senderNameOf p) none) }
    (gocuUpdate now (senderNameOf p) none u)
  refine ⟨?_, ?_, ?_, ?_, ?_, ?_, ?_, ?_⟩
  · rw [(wati_webhook_parts now year p db).2.2.2.2.2, hbody, s6]
    simp [gocuUpdate_awaiting, hawait]
  · rw [(wati_webhook_parts now year p db).2.1, hbody, s2]
    simp [gocuUpdate_awaiting, gocuUpdate_id, hawait]
  · rw [(wati_webhook_parts now year p db).2.2.1, hbody, s3]
  · rw [(wati_webhook_parts now year p db).2.2.2.1, hbody, s4]
  · rw [(wati_webhook_parts now year p db).2.2.2.2.1, hbody, s5]
    simp [gocuUpdate_awaiting, hawait]
  · exact generate_ticket_number_shape db.counters year
  · intro v hv hid
    rw [(wati_webhook_parts now year p db).1, hbody, s1] at hv
    exact mem_updUser_setAwait _ _ v hv hid
  · intro now2 year2 p2 db2 hne
    rcases (wati_webhook_frame now2 year2 p2 db2).2.1 with h | h
    · exact absurd h hne
    · exact h

/-- C4 witness: the theorem applied to the awaiting-query identity of
`c5db` and a plain text. -/
theorem C4_witness :
    ((inbound "919222222222" "my laptop is broken").waId == "") = false ∧
    (wati_webhook 200 2025 (inbound "919222222222" "my laptop is broken") c5db).snd.snd =
      { mkRes "ticket_created" with
        ticketNumber := some (generate_ticket_number c5db.counters 2025).fst,
        category := some "query" } :=
  ⟨by decide,
   (C4_awaiting_regular_text_creates_ticket 200 2025
      (inbound "919222222222" "my laptop is broken") c5db
      { id := 0, phone := "919222222222", name := none, email := none,
        participationLevel := "Unknown", enrolledProgram := none,
        firstSeen := 100, lastInteraction := 100, hasActiveTicket := false,
        awaitingTicketType := some "query" } "query"
      (by decide) (by decide) (by decide) (by decide) (by decide) (by decide)
      (by decide) (by decide) (Or.inl rfl)).1⟩

/-- C5 amended: the chatbot-menu guard is inert only in its own position:
when an active ticket exists, the awaiting-category marker is unset, and
the text matches neither a query/concern button nor any satisfaction
phrase, a chatbot-menu text leaves tickets and transcripts unchanged and
produces no outbound call.  (With the marker set, a menu text creates a
ticket instead, and menu texts matching satisfaction phrases take the
satisfaction branches first.) -/
theorem C5_menu_echo_inert_when_active
    (now year : Nat) (p : Payload) (db : DB) (u : User) (tk : Ticket)
    (hstat : statusEventTypes.contains p.eventType = false)
    (hwa : (p.waId == "") = false)
    (hout : isOutgoingOf p = false)
    (htext : (messageTextOf p != "") = true)
    (hfind : db.users.find? (fun v => v.phone == normalizePhone (waNumberOf p)) = some u)
    (hq : QUERY_BUTTONS.any (fun btn => strContains (messageLowerOf p) btn) = false)
    (hc : CONCERN_BUTTONS.any (fun btn => strContains (messageLowerOf p) btn) = false)
    (haq : (u.awaitingTicketType == some "query") = false)
    (hac : (u.awaitingTicketType == some "concern") = false)
    (hsat : is_satisfaction_response (messageTextOf p) = none)
    (hmenu : CHATBOT_BUTTONS.any (fun btn => strContains (messageLowerOf p) btn) = true)
    (hactive : get_active_ticket_for_user db (waNumberOf p) = some tk) :
    (wati_webhook now year p db).fst.tickets = db.tickets ∧
    (wati_webhook now year p db).fst.ticketMessages = db.ticketMessages ∧
    (wati_webhook now year p db).snd.fst = [] ∧
    (wati_webhook now year p db).snd.snd.status = "chatbot_button_ignored" := by
  have hbody : webhookBody now year p db =
      activeTicketStep now (senderNameOf p) (waNumberOf p) (messageTextOf p)
        (messageLowerOf p)
        { db with users := updUser db.users u.id (gocuUpdate now (senderNameOf p) none) }
        (gocuUpdate now (senderNameOf p) none u) tk := by
    rw [webhookBody_incoming now year p db hstat hwa hout htext,
      handleIncoming_route now year (senderNameOf p) (waNumberOf p) (messageTextOf p)
        (messageLowerOf p) db u hfind hq hc,
      if_neg (by simp [haq, hac])]
    simp only [hactive]
  rw [activeTicketStep_eq_menu _ _ _ _ _ _ _ _ hsat hmenu] at hbody
  refine ⟨?_, ?_, ?_, ?_⟩
  · rw [(wati_webhook_parts now year p db).2.1, hbody]
  · rw [(wati_webhook_parts now year p db).2.2.1, hbody]
  · rw [(wati_webhook_parts now year p db).2.2.2.2.1, hbody]
  · rw [(wati_webhook_parts now year p db).2.2.2.2.2, hbody]
    rfl

/-- C5 witness: the amended theorem applied to the menu label "feedback"
delivered while `c10db`'s ticket is active. -/
theorem C5_witness :
    CHATBOT_BUTTONS.any
      (fun btn => strContains (messageLowerOf (inbound "919444444444" "feedback")) btn) = true ∧
    (wati_webhook 300 2025 (inbound "919444444444" "feedback") c10db).fst.tickets =
      c10db.tickets :=
  ⟨by decide,
   (C5_menu_echo_inert_when_active 300 2025 (inbound "919444444444" "feedback") c10db
      { id := 0, phone := "919444444444", name := none, email := none,
        participationLevel := "Unknown", enrolledProgram := none,
        firstSeen := 100, lastInteraction := 200, hasActiveTicket := true,
        awaitingTicketType := none }
      { id := 0, ticketNumber := "TKT-2025-0001", userId := 0, category := "query",
        initialMessage := "my bill is wrong", status := "pending", createdAt := 200,
        resolvedAt := none, lastUserMessageAt := some 200, lastCounsellorReplyAt := none }
      (by decide) (by decide) (by decide) (by decide) (by decide) (by decide)
      (by decide) (by decide) (by decide) (by decide) (by decide) (by decide)).1⟩

/-- C7 amended: the satisfaction_no branch has no already-awaiting guard:
whenever an inbound message classifies satisfaction_no while an active
ticket exists (the awaiting-category marker unset, no query/concern
button), the handler appends the synthetic transcript row, sets the
ticket's status to "awaiting" and its last-inbound timestamp to now, and
re-sends the follow-up prompt — whatever the ticket's current status,
including "awaiting" itself, so duplicate prompts are not suppressed. -/
theorem C7_satisfaction_no_always_reprompts
    (now year : Nat) (p : Payload) (db : DB) (u : User) (tk : Ticket)
    (hstat : statusEventTypes.contains p.eventType = false)
    (hwa : (p.waId == "") = false)
    (hout : isOutgoingOf p = false)
    (htext : (messageTextOf p != "") = true)
    (hfind : db.users.find? (fun v => v.phone == normalizePhone (waNumberOf p)) = some u)
    (hq : QUERY_BUTTONS.any (fun btn => strContains (messageLowerOf p) btn) = false)
    (hc : CONCERN_BUTTONS.any (fun btn => strContains (messageLowerOf p) btn) = false)
    (haq : (u.awaitingTicketType == some "query") = false)
    (hac : (u.awaitingTicketType == some "concern") = false)
    (hsat : is_satisfaction_response (messageTextOf p) = some false)
    (hactive : get_active_ticket_for_user db (waNumberOf p) = some tk) :
    (wati_webhook now year p db).fst.ticketMessages = db.ticketMessages ++
      [{ ticketId := tk.id, direction := "incoming", messageType := "text",
         messageText := "[User requested more help]", watiMessageId := none,
         deliveryStatus := "sent", sentBy := senderNameOf p,
         deliveredAt := none, readAt := none }] ∧
    (wati_webhook now year p db).fst.tickets = db.tickets.map (fun t =>
      if t.id == tk.id then { t with lastUserMessageAt := some now, status := "awaiting" }
      else t) ∧
    (wati_webhook now year p db).snd.fst =
      [Effect.sendText (waNumberOf p) moreHelpPrompt] ∧
    (wati_webhook now year p db).snd.snd.status = "need_more_help" := by
  have hbody : webhookBody now year p db =
      activeTicketStep now (senderNameOf p) (waNumberOf p) (messageTextOf p)
        (messageLowerOf p)
        { db with users := updUser db.users u.id (gocuUpdate now (senderNameOf p) none) }
        (gocuUpdate now (senderNameOf p) none u) tk := by
    rw [webhookBody_incoming now year p db hstat hwa hout htext,
      handleIncoming_route now year (senderNameOf p) (waNumberOf p) (messageTextOf p)
        (messageLowerOf p) db u hfind hq hc,
      if_neg (by simp [haq, hac])]
    simp only [hactive]
  rw [activeTicketStep_eq_needhelp _ _ _ _ _ _ _ _ hsat] at hbody
  refine ⟨?_, ?_, ?_, ?_⟩
  · rw [(wati_webhook_parts now year p db).2.2.1, hbody]
  · rw [(wati_webhook_parts now year p db).2.1, hbody]
  · rw [(wati_webhook_parts now year p db).2.2.2.2.1, hbody]
  · rw [(wati_webhook_parts now year p db).2.2.2.2.2, hbody]
    rfl

/-- C7 witness: a second "no" while the `c7db` ticket is already
"awaiting" still appends the synthetic row and re-sends the prompt. -/
theorem C7_witness :
    (c7db.tickets.map Ticket.status = ["awaiting"]) ∧
    (wati_webhook 400 2025 c7payload c7db).snd.fst =
      [Effect.sendText (waNumberOf c7payload) moreHelpPrompt] :=
  ⟨by decide,
   (C7_satisfaction_no_always_reprompts 400 2025 c7payload c7db
      { id := 0, phone := "919555555555", name := none, email := none,
        participationLevel := "Unknown", enrolledProgram := none,
        firstSeen := 100, lastInteraction := 300, hasActiveTicket := true,
        awaitingTicketType := none }
      { id := 0, ticketNumber := "TKT-2025-0001", userId := 0, category := "query",
        initialMessage := "my bill is wrong", status := "awaiting", createdAt := 200,
        resolvedAt := none, lastUserMessageAt := some 300, lastCounsellorReplyAt := none }
      (by decide) (by decide) (by decide) (by decide) (by decide) (by decide)
      (by decide) (by decide) (by decide) (by decide) (by decide)).2.2.1⟩

/-! ### Counsellor-reply claim support -/

/-- The success condition of `send_wati_interactive_buttons`, as a
function of token and provider response alone. -/
def buttonsSendOk (token : String) (resp : WatiHttpResponse) : Bool :=
  !(token == "") && (resp.statusCode == 200 &&
    (resp.resultFlag || resp.statusString == some "SENT" || resp.whatsappMessageId.isSome))

theorem buttons_send_success (token : String) (resp : WatiHttpResponse)
    (ph body : String) (btns : List String) :
    (send_wati_interactive_buttons token resp ph body btns).fst.success =
      buttonsSendOk token resp := by
  unfold send_wati_interactive_buttons buttonsSendOk
  by_cases h : (token == "") = true
  · simp [h]
  · have h' : (token == "") = false := by simpa using h
    by_cases h2 : (resp.statusCode == 200 &&
        (resp.resultFlag || resp.statusString == some "SENT" ||
          resp.whatsappMessageId.isSome)) = true <;>
      simp [h', h2]

theorem buttons_send_ok_eq (token : String) (resp : WatiHttpResponse)
    (ph body : String) (btns : List String)
    (h : buttonsSendOk token resp = true) :
    send_wati_interactive_buttons token resp ph body btns =
      ({ success := true, messageId := pyOrOpt resp.messageId resp.whatsappMessageId,
         error := none },
       [Effect.sendButtons (normalizePhone ph) body btns]) := by
  unfold buttonsSendOk at h
  rw [Bool.and_eq_true] at h
  obtain ⟨h1, h2⟩ := h
  have h1' : (token == "") = false := by simpa using h1
  unfold send_wati_interactive_buttons
  simp [h1', h2]

/-- Did the reply endpoint answer with an HTTP 400 rejection? -/
def isReplyRejection (o : ReplyOutcome) : Bool :=
  match o with
  | .httpError c _ => c == 400
  | .ok _ => false

/-- Canonical ticket/user pair for the boundary instances of C6. -/
def c6SampleUser : User :=
  { id := 0, phone := "919111111111", name := some "Asha", email := none,
    participationLevel := "Unknown", enrolledProgram := none, firstSeen := 0,
    lastInteraction := 0, hasActiveTicket := true, awaitingTicketType := none }

def c6SampleTicket : Ticket :=
  { id := 0, ticketNumber := "TKT-2025-0001", userId := 0, category := "query",
    initialMessage := "help", status := "pending", createdAt := 0, resolvedAt := none,
    lastUserMessageAt := some 0, lastCounsellorReplyAt := none }

def c6db : DB := { DB.empty with users := [c6SampleUser], tickets := [c6SampleTicket] }

/-- C6: for an existing ticket, the reply endpoint answers with an HTTP
400 rejection exactly when the ticket is resolved or more than 24 hours
have passed since the last inbound message (a provider send failure is a
distinct HTTP 500); on a successful provider send the status becomes
`in_progress`, the outbound transcript row is recorded and the
counsellor-reply timestamp is set.  The two closed conjuncts check the
boundary: with the last inbound at time 0, a reply at 23h59m (86340 s)
succeeds and a reply at 24h01m (86460 s) is rejected. -/
theorem C6_reply_window
    (now : Nat) (token : String) (resp : WatiHttpResponse) (db : DB) (tid : Nat)
    (msg cn : String) (t : Ticket)
    (hfind : db.tickets.find? (fun x => x.id == tid) = some t) :
    ((isReplyRejection (send_ticket_reply now token resp db tid msg cn).fst = true) ↔
      (t.status = "resolved" ∨
        24 * 3600 < now - (t.lastUserMessageAt.getD t.createdAt))) ∧
    (t.status ≠ "resolved" →
      now - (t.lastUserMessageAt.getD t.createdAt) ≤ 24 * 3600 →
      buttonsSendOk token resp = true →
      (send_ticket_reply now token resp db tid msg cn).fst =
        ReplyOutcome.ok (pyOrOpt resp.messageId resp.whatsappMessageId) ∧
      (send_ticket_reply now token resp db tid msg cn).snd.fst =
        { db with
          ticketMessages := db.ticketMessages ++
            [{ ticketId := t.id, direction := "outgoing", messageType := "text",
               messageText := msg,
               watiMessageId := pyOrOpt resp.messageId resp.whatsappMessageId,
               deliveryStatus := "sent", sentBy := some cn,
               deliveredAt := none, readAt := none }],
          tickets := (db.tickets.map (fun x =>
            if x.id == t.id then
              { x with status := "in_progress", lastCounsellorReplyAt := some now }
            else x)) }) ∧
    (send_ticket_reply 86340 "tok" okResp c6db 0 "hello" "C").fst =
      ReplyOutcome.ok (some "wamid-99") ∧
    (send_ticket_reply 86460 "tok" okResp c6db 0 "hello" "C").fst =
      ReplyOutcome.httpError 400
        "24-hour window has expired. Cannot send session message." := by
  refine ⟨?_, ?_, by decide, by decide⟩
  · unfold send_ticket_reply
    simp only [hfind]
    by_cases hres : (t.status == "resolved") = true
    · rw [if_pos hres]
      simp only [isReplyRejection]
      simp only [beq_iff_eq] at hres
      simp [hres]
    · rw [if_neg hres]
      simp only [beq_iff_eq] at hres
      by_cases hexp : 24 * 3600 < now - (t.lastUserMessageAt.getD t.createdAt)
      · rw [if_pos hexp]
        simp [isReplyRejection, hexp]
      · rw [if_neg hexp]
        split <;> simp [isReplyRejection, hres, hexp]
  · intro hres hwin hok
    unfold send_ticket_reply
    simp only [hfind]
    rw [if_neg (by simp [hres]), if_neg (Nat.not_lt.mpr hwin),
      buttons_send_ok_eq token resp _ _ _ hok]
    exact ⟨rfl, rfl⟩

/-- C6 witness: the theorem applied to the sample ticket at 23h59m. -/
theorem C6_witness :
    c6db.tickets.find? (fun x => x.id == 0) = some c6SampleTicket ∧
    ((isReplyRejection (send_ticket_reply 86340 "tok" okResp c6db 0 "hello" "C").fst = true) ↔
      (c6SampleTicket.status = "resolved" ∨
        24 * 3600 < 86340 -
          (c6SampleTicket.lastUserMessageAt.getD c6SampleTicket.createdAt))) :=
  ⟨by decide,
   (C6_reply_window 86340 "tok" okResp c6db 0 "hello" "C" c6SampleTicket (by decide)).1⟩

/-! ### Bidirectional satisfaction matching (C10 support) -/

/-- Some yes-phrase occurs in the text, or the text occurs in some
yes-phrase (the partial-match loop of `is_satisfaction_response`). -/
def yesMatch (ml : String) : Bool :=
  SATISFACTION_YES_RESPONSES.any (fun y => strContains ml y || strContains y ml)

/-- The analogous bidirectional condition over the no-phrases. -/
def noMatch (ml : String) : Bool :=
  SATISFACTION_NO_RESPONSES.any (fun n => strContains ml n || strContains n ml)

theorem yesMatch_of_contains (ml : String)
    (h : SATISFACTION_YES_RESPONSES.contains ml = true) : yesMatch ml = true := by
  have hm : ml ∈ SATISFACTION_YES_RESPONSES := by simpa using h
  simp only [SATISFACTION_YES_RESPONSES, List.mem_cons, List.not_mem_nil, or_false] at hm
  rcases hm with rfl | rfl | rfl | rfl | rfl <;> decide

theorem noMatch_of_contains (ml : String)
    (h : SATISFACTION_NO_RESPONSES.contains ml = true) : noMatch ml = true := by
  have hm : ml ∈ SATISFACTION_NO_RESPONSES := by simpa using h
  simp only [SATISFACTION_NO_RESPONSES, List.mem_cons, List.not_mem_nil, or_false] at hm
  rcases hm with rfl | rfl | rfl | rfl | rfl <;> decide

/-- No member of the exact no-set matches any yes-phrase bidirectionally:
the exact-no check never pre-empts a partial yes match. -/
theorem yesMatch_false_of_no_contains (ml : String)
    (h : SATISFACTION_NO_RESPONSES.contains ml = true) : yesMatch ml = false := by
  have hm : ml ∈ SATISFACTION_NO_RESPONSES := by simpa using h
  simp only [SATISFACTION_NO_RESPONSES, List.mem_cons, List.not_mem_nil, or_false] at hm
  rcases hm with rfl | rfl | rfl | rfl | rfl <;> decide

/-- The classifier returns yes exactly on a bidirectional yes match. -/
theorem is_satisfaction_true_iff (m : String) :
    is_satisfaction_response m = some true ↔
      yesMatch (pyStrip (pyLower m)) = true := by
  unfold is_satisfaction_response
  by_cases h1 : SATISFACTION_YES_RESPONSES.contains (pyStrip (pyLower m)) = true
  · rw [if_pos h1]
    simp [yesMatch_of_contains _ h1]
  · rw [if_neg h1]
    by_cases h2 : SATISFACTION_NO_RESPONSES.contains (pyStrip (pyLower m)) = true
    · rw [if_pos h2]
      simp [yesMatch_false_of_no_contains _ h2]
    · rw [if_neg h2]
      by_cases h3 : yesMatch (pyStrip (pyLower m)) = true
      · have h3' := h3
        unfold yesMatch at h3'
        rw [if_pos h3']
        simp [h3]
      · have h3' : yesMatch (pyStrip (pyLower m)) = false := by simpa using h3
        have h3'' := h3'
        unfold yesMatch at h3''
        rw [if_neg (by simp [h3''])]
        split <;> simp [h3']

/-- The classifier returns no exactly on a bidirectional no match with no
bidirectional yes match (the yes loop runs first). -/
theorem is_satisfaction_false_iff (m : String) :
    is_satisfaction_response m = some false ↔
      (yesMatch (pyStrip (pyLower m)) = false ∧
        noMatch (pyStrip (pyLower m)) = true) := by
  unfold is_satisfaction_response
  by_cases h1 : SATISFACTION_YES_RESPONSES.contains (pyStrip (pyLower m)) = true
  · rw [if_pos h1]
    simp [yesMatch_of_contains _ h1]
  · rw [if_neg h1]
    by_cases h2 : SATISFACTION_NO_RESPONSES.contains (pyStrip (pyLower m)) = true
    · rw [if_pos h2]
      simp [yesMatch_false_of_no_contains _ h2, noMatch_of_contains _ h2]
    · rw [if_neg h2]
      by_cases h3 : yesMatch (pyStrip (pyLower m)) = true
      · have h3' := h3
        unfold yesMatch at h3'
        rw [if_pos h3']
        simp [h3]
      · have h3' : yesMatch (pyStrip (pyLower m)) = false := by simpa using h3
        have h3'' := h3'
        unfold yesMatch at h3''
        rw [if_neg (by simp [h3''])]
        by_cases h4 : noMatch (pyStrip (pyLower m)) = true
        · have h4' := h4
          unfold noMatch at h4'
          rw [if_pos h4']
          simp [h3', h4]
        · have h4' : noMatch (pyStrip (pyLower m)) = false := by simpa using h4
          have h4'' := h4'
          unfold noMatch at h4''
          rw [if_neg (by simp [h4''])]
          simp [h4']

/-- C10 amended: satisfaction matching is bidirectional substring
matching, with the yes-phrases checked before the no-phrases.  For an
identity with an active ticket (awaiting-category marker unset, no
query/concern button in the text): a bidirectional yes match — for
instance "yes I still need help", which contains "yes" — resolves the
ticket; a bidirectional no match resolves to the need-more-help branch
only when no yes-phrase also matches. -/
theorem C10_bidirectional_satisfaction
    (now year : Nat) (p : Payload) (db : DB) (u : User) (tk : Ticket)
    (hstat : statusEventTypes.contains p.eventType = false)
    (hwa : (p.waId == "") = false)
    (hout : isOutgoingOf p = false)
    (htext : (messageTextOf p != "") = true)
    (hfind : db.users.find? (fun v => v.phone == normalizePhone (waNumberOf p)) = some u)
    (hq : QUERY_BUTTONS.any (fun btn => strContains (messageLowerOf p) btn) = false)
    (hc : CONCERN_BUTTONS.any (fun btn => strContains (messageLowerOf p) btn) = false)
    (haq : (u.awaitingTicketType == some "query") = false)
    (hac : (u.awaitingTicketType == some "concern") = false)
    (hactive : get_active_ticket_for_user db (waNumberOf p) = some tk) :
    (yesMatch (messageLowerOf p) = true →
      (wati_webhook now year p db).snd.snd.status = "ticket_resolved" ∧
      (wati_webhook now year p db).fst.tickets = db.tickets.map (fun t =>
        if t.id == tk.id then { t with status := "resolved", resolvedAt := some now }
        else t) ∧
      (wati_webhook now year p db).snd.fst =
        [Effect.sendText (waNumberOf p) (resolvedText tk.ticketNumber),
         Effect.unassignOperator (waNumberOf p)]) ∧
    (yesMatch (messageLowerOf p) = false → noMatch (messageLowerOf p) = true →
      (wati_webhook now year p db).snd.snd.status = "need_more_help" ∧
      (wati_webhook now year p db).fst.tickets = db.tickets.map (fun t =>
        if t.id == tk.id then { t with lastUserMessageAt := some now, status := "awaiting" }
        else t) ∧
      (wati_webhook now year p db).snd.fst =
        [Effect.sendText (waNumberOf p) moreHelpPrompt]) := by
  have hroute : webhookBody now year p db =
      activeTicketStep now (senderNameOf p) (waNumberOf p) (messageTextOf p)
        (messageLowerOf p)
        { db with users := updUser db.users u.id (gocuUpdate now (senderNameOf p) none) }
        (gocuUpdate now (senderNameOf p) none u) tk := by
    rw [webhookBody_incoming now year p db hstat hwa hout htext,
      handleIncoming_route now year (senderNameOf p) (waNumberOf p) (messageTextOf p)
        (messageLowerOf p) db u hfind hq hc,
      if_neg (by simp [haq, hac])]
    simp only [hactive]
  constructor
  · intro hyes
    have hsat : is_satisfaction_response (messageTextOf p) = some true :=
      (is_satisfaction_true_iff (messageTextOf p)).mpr hyes
    have hbody := hroute
    rw [activeTicketStep_eq_resolved _ _ _ _ _ _ _ _ hsat] at hbody
    refine ⟨?_, ?_, ?_⟩
    · rw [(wati_webhook_parts now year p db).2.2.2.2.2, hbody]
      rfl
    · rw [(wati_webhook_parts now year p db).2.1, hbody]
    · rw [(wati_webhook_parts now year p db).2.2.2.2.1, hbody]
  · intro hyes hno
    have hsat : is_satisfaction_response (messageTextOf p) = some false :=
      (is_satisfaction_false_iff (messageTextOf p)).mpr ⟨hyes, hno⟩
    have hbody := hroute
    rw [activeTicketStep_eq_needhelp _ _ _ _ _ _ _ _ hsat] at hbody
    refine ⟨?_, ?_, ?_⟩
    · rw [(wati_webhook_parts now year p db).2.2.2.2.2, hbody]
      rfl
    · rw [(wati_webhook_parts now year p db).2.1, hbody]
    · rw [(wati_webhook_parts now year p db).2.2.2.2.1, hbody]

/-- C10 witness: "yes I still need help" resolves `c10db`'s pending
ticket via the bidirectional yes match on "yes". -/
theorem C10_witness :
    yesMatch (messageLowerOf (inbound "919444444444" "yes I still need help")) = true ∧
    (wati_webhook 300 2025 (inbound "919444444444" "yes I still need help")
      c10db).snd.snd.status = "ticket_resolved" :=
  ⟨by decide,
   ((C10_bidirectional_satisfaction 300 2025
      (inbound "919444444444" "yes I still need help") c10db
      { id := 0, phone := "919444444444", name := none, email := none,
        participationLevel := "Unknown", enrolledProgram := none,
        firstSeen := 100, lastInteraction := 200, hasActiveTicket := true,
        awaitingTicketType := none }
      { id := 0, ticketNumber := "TKT-2025-0001", userId := 0, category := "query",
        initialMessage := "my bill is wrong", status := "pending", createdAt := 200,
        resolvedAt := none, lastUserMessageAt := some 200, lastCounsellorReplyAt := none }
      (by decide) (by decide) (by decide) (by decide) (by decide) (by decide)
      (by decide) (by decide) (by decide) (by decide)).1 (by decide)).1⟩

/-- C9 amended: a display name, once truthy, is preserved by every
webhook delivery (first non-empty value wins, `get_or_create_user` never
overwrites a truthy name and no other code path writes it); the email,
however, is first-wins only in `get_or_create_user` — the email-capture
branch (inbound text with an address, no ticket context) overwrites the
stored email with the newly extracted address. -/
theorem C9_name_kept_email_capture_overwrites :
    (∀ (now year : Nat) (p : Payload) (db : DB) (uid : Nat) (u : User),
      db.users.find? (fun v => v.id == uid) = some u →
      optTruthy u.name = true →
      ∃ u2, (wati_webhook now year p db).fst.users.find? (fun v => v.id == uid) =
          some u2 ∧ u2.name = u.name) ∧
    (∀ (now year : Nat) (p : Payload) (db : DB) (u : User) (em : String),
      statusEventTypes.contains p.eventType = false →
      (p.waId == "") = false →
      isOutgoingOf p = false →
      (messageTextOf p != "") = true →
      db.users.find? (fun v => v.phone == normalizePhone (waNumberOf p)) = some u →
      QUERY_BUTTONS.any (fun btn => strContains (messageLowerOf p) btn) = false →
      CONCERN_BUTTONS.any (fun btn => strContains (messageLowerOf p) btn) = false →
      (u.awaitingTicketType == some "query") = false →
      (u.awaitingTicketType == some "concern") = false →
      get_active_ticket_for_user db (waNumberOf p) = none →
      extract_email (messageTextOf p) = some em →
      ∀ v ∈ (wati_webhook now year p db).fst.users, v.id = u.id → v.email = some em) := by
  constructor
  · intro now year p db uid u hfind hname
    exact (webhookBody_frame now year p db).1 uid u hfind hname
  · intro now year p db u em hstat hwa hout htext hfind hq hc haq hac hactive hem
    have hbody : webhookBody now year p db =
        noTicketStep (messageTextOf p)
          { db with users := updUser db.users u.id (gocuUpdate now (senderNameOf p) none) }
          (gocuUpdate now (senderNameOf p) none u) := by
      rw [webhookBody_incoming now year p db hstat hwa hout htext,
        handleIncoming_route now year (senderNameOf p) (waNumberOf p) (messageTextOf p)
          (messageLowerOf p) db u hfind hq hc,
        if_neg (by simp [haq, hac])]
      simp only [hactive]
    rw [noTicketStep_eq_email _ _ _ em hem] at hbody
    intro v hv hid
    rw [(wati_webhook_parts now year p db).1, hbody] at hv
    exact mem_updUser_setEmail _ _ em v hv hid

/-- C9 witness: both parts at concrete inputs — the named user of `c6db`
keeps the name "Asha" across a delivery, and a second address delivered
to `c9db`'s user overwrites the stored email. -/
theorem C9_witness :
    (∃ u2, (wati_webhook 500 2025 (inbound "919111111111" "hello world")
        c6db).fst.users.find? (fun v => v.id == 0) = some u2 ∧
      u2.name = c6SampleUser.name) ∧
    (∀ v ∈ (wati_webhook 200 2025 (inbound "919333333333" "better use second@mail.org")
        c9db).fst.users, v.id = 0 → v.email = some "second@mail.org") :=
  ⟨C9_name_kept_email_capture_overwrites.1 500 2025 (inbound "919111111111" "hello world")
    c6db 0 c6SampleUser (by decide) (by decide),
   C9_name_kept_email_capture_overwrites.2 200 2025
    (inbound "919333333333" "better use second@mail.org") c9db
    { id := 0, phone := "919333333333", name := none, email := some "first@mail.com",
      participationLevel := "Unknown", enrolledProgram := none,
      firstSeen := 100, lastInteraction := 100, hasActiveTicket := false,
      awaitingTicketType := none } "second@mail.org"
    (by decide) (by decide) (by decide) (by decide) (by decide) (by decide)
    (by decide) (by decide) (by decide) (by decide) (by decide)⟩

end Wati
